import Mathlib

/-!
Verification of the networked simulation core of TankGameMultiplayer
(SFML-ECS-Networking). C++ floats are modelled as exact rationals ℚ,
machine integers as ℕ/ℤ (with explicit `% 2^32` where uint32 wrap-around
matters), and calls into libm (`std::cos`, `std::sin`, `std::atan2`,
`std::sqrt`) as oracle function parameters, so that every definition stays
computable and mirrors the control flow of the source.

The file is laid out as: definitions (shallow embedding of the source),
then theorems.
-/

namespace TankGame

/-!  NetworkValidation::NormalizeRotation (network_validation.h, lines 77-82).
The C++ body is
  `while (rotation < 0.0f) rotation += 360.0f;`
  `while (rotation >= 360.0f) rotation -= 360.0f;`
modelled as two well-founded recursions over ℚ.  The NaN/infinity guard of
the source has no rational counterpart (every ℚ is finite). -/

/-- First loop of NormalizeRotation: add 360 while the value is negative. -/
def addLoop (r : ℚ) : ℚ :=
  if r < 0 then addLoop (r + 360) else r
termination_by (⌈-r / 360⌉).toNat
decreasing_by
  rename_i h
  have hpos : (0 : ℚ) < -r / 360 := by
    have : (0 : ℚ) < -r := by linarith
    positivity
  have h1 : (0 : ℤ) < ⌈-r / 360⌉ := Int.ceil_pos.mpr hpos
  have heq : -(r + 360) / 360 = -r / 360 - 1 := by ring
  have h2 : ⌈-(r + 360) / 360⌉ = ⌈-r / 360⌉ - 1 := by
    rw [heq, Int.ceil_sub_one]
  omega

/-- Second loop of NormalizeRotation: subtract 360 while the value is ≥ 360. -/
def subLoop (r : ℚ) : ℚ :=
  if r ≥ 360 then subLoop (r - 360) else r
termination_by (⌊r / 360⌋).toNat
decreasing_by
  rename_i h
  have h1 : (1 : ℤ) ≤ ⌊r / 360⌋ := by
    apply Int.le_floor.mpr
    push_cast
    linarith [(by linarith : (360 : ℚ) ≤ r)]
  have heq : (r - 360) / 360 = r / 360 - 1 := by ring
  have h2 : ⌊(r - 360) / 360⌋ = ⌊r / 360⌋ - 1 := by
    rw [heq, Int.floor_sub_one]
  omega

/-- NetworkValidation::NormalizeRotation modelled over ℚ. -/
def NormalizeRotation (r : ℚ) : ℚ := subLoop (addLoop r)

/-- Mathematical normal form: `r` reduced modulo 360 into `[0, 360)`. -/
def fract360 (r : ℚ) : ℚ := r - 360 * (⌊r / 360⌋ : ℤ)

/-- Truncation toward zero, as C's float→int conversion / fmod quotient. -/
def truncQ (x : ℚ) : ℤ := if 0 ≤ x then ⌊x⌋ else ⌈x⌉

/-- C-style floating point modulus: `a - b * trunc(a / b)`. -/
def fmodQ (a b : ℚ) : ℚ := a - b * (truncQ (a / b) : ℤ)

/-- The spec's formula `((r mod 360) + 360) mod 360` for rotation
normalization, with `mod` the C-style truncating fmod.  This definition
follows the spec's words and is compared with `NormalizeRotation`. -/
def specNormalizeRotation (r : ℚ) : ℚ := fmodQ (fmodQ r 360 + 360) 360

/-!  World constants (world_constants.h).  All values are exact in ℚ. -/

namespace WorldConstants

def WORLD_WIDTH : ℚ := 1280
def WORLD_HEIGHT : ℚ := 960
def BORDER_THICKNESS : ℚ := 48
def PLAYABLE_MIN_X : ℚ := BORDER_THICKNESS
def PLAYABLE_MAX_X : ℚ := WORLD_WIDTH - BORDER_THICKNESS
def PLAYABLE_MIN_Y : ℚ := BORDER_THICKNESS
def PLAYABLE_MAX_Y : ℚ := WORLD_HEIGHT - BORDER_THICKNESS
def TANK_RADIUS : ℚ := 25
def MOVEMENT_MIN_X : ℚ := PLAYABLE_MIN_X + TANK_RADIUS
def MOVEMENT_MAX_X : ℚ := PLAYABLE_MAX_X - TANK_RADIUS
def MOVEMENT_MIN_Y : ℚ := PLAYABLE_MIN_Y + TANK_RADIUS
def MOVEMENT_MAX_Y : ℚ := PLAYABLE_MAX_Y - TANK_RADIUS
def CENTER_X : ℚ := WORLD_WIDTH / 2
def CENTER_Y : ℚ := WORLD_HEIGHT / 2

end WorldConstants

/-!  NetworkValidation helpers (network_validation.h).  `IsValidColor` checks
only that the string is non-empty and at most `MAX_COLOR_NAME_LENGTH = 20`
characters long; there is no whitelist of color names anywhere in the
validation layer. -/

def MAX_PLAYER_NAME_LENGTH : ℕ := 50
def MAX_COLOR_NAME_LENGTH : ℕ := 20

def IsValidPlayerName (name : String) : Bool :=
  !name.isEmpty && name.length ≤ MAX_PLAYER_NAME_LENGTH

def IsValidColor (color : String) : Bool :=
  !color.isEmpty && color.length ≤ MAX_COLOR_NAME_LENGTH

def IsValidPlayerId (playerId : ℕ) : Bool :=
  0 < playerId && playerId < 1000000

/-- NetworkValidation::ClampPosition (the NaN/inf branch has no rational
counterpart). -/
def ClampPosition (value lo hi : ℚ) : ℚ := max lo (min hi value)

def ClampPositionX (x : ℚ) : ℚ :=
  ClampPosition x WorldConstants.MOVEMENT_MIN_X WorldConstants.MOVEMENT_MAX_X

def ClampPositionY (y : ℚ) : ℚ :=
  ClampPosition y WorldConstants.MOVEMENT_MIN_Y WorldConstants.MOVEMENT_MAX_Y

/-- The color whitelist named by the spec ({red, blue, green, black}); stated
here only to compare the spec's words against the code's behaviour. -/
def specColorWhitelist : List String := ["red", "blue", "green", "black"]

/-!  Data model (network_messages.h, game_server.h). -/

/-- network_messages.h `PlayerData`.  Floats are ℚ, uint32 ids are ℕ. -/
structure PlayerData where
  playerId : ℕ := 0
  playerName : String := ""
  x : ℚ := 0
  y : ℚ := 0
  bodyRotation : ℚ := 0
  barrelRotation : ℚ := 0
  color : String := "green"
  isMoving_forward : Bool := false
  isMoving_backward : Bool := false
  isMoving_left : Bool := false
  isMoving_right : Bool := false
  health : ℚ := 100
  maxHealth : ℚ := 100
  score : ℤ := 0
  isDead : Bool := false
  deriving Repr, DecidableEq

/-- game_server.h `ClientInfo`.  The address is abstracted to a ℕ token; the
`receivedSequenceNumbers` map (values are always `true`) is a finite set. -/
structure ClientInfo where
  address : ℕ := 0
  port : ℕ := 0
  playerData : PlayerData := {}
  lastUpdateTime : ℚ := 0
  isActive : Bool := true
  lastReceivedSequenceNumber : ℕ := 0
  receivedSequenceNumbers : Finset ℕ := ∅
  lastAcknowledgedInputSeq : ℕ := 0
  score : ℤ := 0
  isDead : Bool := false
  deathTimer : ℚ := 0
  deriving DecidableEq

/-- ClientInfo::RESPAWN_COOLDOWN (game_server.h line 28). -/
def RESPAWN_COOLDOWN : ℚ := 5

/-- ClientInfo::DEATH_PENALTY (game_server.h line 29). -/
def DEATH_PENALTY : ℤ := 100

/-- Messages the modelled server handlers emit. -/
inductive ServerMessage where
  | inputAck (playerId acknowledgedSequence : ℕ)
  | playerDeath (playerId killerId : ℕ) (deathX deathY : ℚ) (scorePenalty : ℤ)
  | playerRespawn (playerId : ℕ) (spawnX spawnY : ℚ) (health : ℚ)
  deriving Repr, DecidableEq

/-- network_messages.h `PlayerInputMessage` (fields the handler reads). -/
structure PlayerInputMessage where
  playerId : ℕ
  isMoving_forward : Bool
  isMoving_backward : Bool
  isMoving_left : Bool
  isMoving_right : Bool
  timestamp : ℤ
  sequenceNumber : ℕ
  barrelRotation : ℚ
  deriving Repr, DecidableEq

/-- network_messages.h `JoinMessage` (fields the handler reads). -/
structure JoinMessage where
  playerName : String
  preferredColor : String
  timestamp : ℤ
  sequenceNumber : ℕ
  deriving Repr, DecidableEq

/-!  Sequence-number validation and recording
(game_server.cpp, GameServer::ValidateSequenceNumber lines 483-494 and
GameServer::RecordReceivedSequence lines 496-518).  Sequence numbers are
uint32, so `sequenceNumber + 50` wraps modulo 2^32. -/

def U32_MOD : ℕ := 2 ^ 32
def OUT_OF_ORDER_THRESHOLD : ℕ := 50
def MAX_SEQUENCE_HISTORY : ℕ := 200

def ValidateSequenceNumber (client : ClientInfo) (sequenceNumber : ℕ) : Bool :=
  if sequenceNumber ∈ client.receivedSequenceNumbers then
    false
  else if (sequenceNumber + OUT_OF_ORDER_THRESHOLD) % U32_MOD
      < client.lastReceivedSequenceNumber then
    false
  else
    true

def RecordReceivedSequence (client : ClientInfo) (sequenceNumber : ℕ) : ClientInfo :=
  let received := insert sequenceNumber client.receivedSequenceNumbers
  let lastReceived :=
    if sequenceNumber > client.lastReceivedSequenceNumber then sequenceNumber
    else client.lastReceivedSequenceNumber
  let received :=
    if received.card > MAX_SEQUENCE_HISTORY then
      let minSequence :=
        if lastReceived > MAX_SEQUENCE_HISTORY then lastReceived - MAX_SEQUENCE_HISTORY
        else 0
      received.filter (fun s => ¬ s < minSequence)
    else received
  { client with
    receivedSequenceNumbers := received
    lastReceivedSequenceNumber := lastReceived }

/-!  GameServer::HandlePlayerInput (game_server.cpp lines 396-457), modelled
for the sender's `ClientInfo` entry (the map lookup and address comparison
become the `addressMatches` flag).  The timestamp / barrel-rotation /
sequence-number validations in the source only emit log lines; in particular
the result of `ValidateSequenceNumber` is computed and then discarded, after
which the input is applied and acknowledged unconditionally. -/

def HandlePlayerInput (client : ClientInfo) (msg : PlayerInputMessage)
    (addressMatches : Bool) : ClientInfo × List ServerMessage :=
  if ¬ IsValidPlayerId msg.playerId then (client, [])
  else if ¬ addressMatches then (client, [])
  else
    let _validSeq := ValidateSequenceNumber client msg.sequenceNumber
    let pd := { client.playerData with
      isMoving_forward := msg.isMoving_forward
      isMoving_backward := msg.isMoving_backward
      isMoving_left := msg.isMoving_left
      isMoving_right := msg.isMoving_right
      barrelRotation := NormalizeRotation msg.barrelRotation }
    let c1 := { client with playerData := pd, lastUpdateTime := 0 }
    let c2 := RecordReceivedSequence c1 msg.sequenceNumber
    let c3 := { c2 with lastAcknowledgedInputSeq := msg.sequenceNumber }
    (c3, [ServerMessage.inputAck msg.playerId msg.sequenceNumber])

/-!  GameServer::HandleJoinRequest (game_server.cpp lines 259-319), modelled
for the no-existing-player branch.  An invalid player name returns early
(no player created); an invalid color and an invalid timestamp only emit a
warning and execution continues.  `assignedColor` stands for the
`AssignColor()` result used when the preferred color is empty. -/

def HandleJoinRequest (msg : JoinMessage) (assignedColor : String)
    (nextPlayerId : ℕ) : Option ClientInfo :=
  if ¬ IsValidPlayerName msg.playerName then none
  else
    let _colorOk := msg.preferredColor.isEmpty || IsValidColor msg.preferredColor
    let pd : PlayerData := { ({} : PlayerData) with
      playerId := nextPlayerId
      playerName := msg.playerName
      color := if ¬ msg.preferredColor.isEmpty then msg.preferredColor else assignedColor
      x := WorldConstants.CENTER_X
      y := WorldConstants.CENTER_Y
      health := 100
      maxHealth := 100 }
    let newClient : ClientInfo := { ({} : ClientInfo) with
      isActive := true
      playerData := pd }
    some (RecordReceivedSequence newClient msg.sequenceNumber)

/-!  Enemy state as the server sees it (EnemyTank members referenced by
game_server.cpp; EnemyTank.h line 54: `IsDead() { return currentHealth <= 0.0f; }`). -/

structure EnemyState where
  x : ℚ := 0
  y : ℚ := 0
  bodyRotation : ℚ := 0
  barrelRotation : ℚ := 0
  health : ℚ := 100
  maxHealth : ℚ := 100
  enemyType : ℕ := 0
  deriving Repr, DecidableEq

def EnemyState.IsDead (e : EnemyState) : Bool := e.health ≤ 0

/-- network_messages.h `EnemyData` as written into a GameState packet. -/
structure EnemyData where
  enemyId : ℕ
  enemyType : ℕ
  x : ℚ
  y : ℚ
  bodyRotation : ℚ
  barrelRotation : ℚ
  health : ℚ
  maxHealth : ℚ
  deriving Repr, DecidableEq

/-- The GameState packet contents (game_server.cpp lines 540-608 /
651-696): active players, all enemies, then
`timestamp << outgoingSequenceNumber++ << lastAckedInput`. -/
structure GameStateMessage where
  players : List PlayerData
  enemies : List EnemyData
  timestamp : ℤ
  sequenceNumber : ℕ
  lastAckedInput : ℕ
  deriving DecidableEq

/-- GameServer::SendGameStateToAll / SendGameStateToClient packet
construction.  Before serialising, each active client's `playerData.score`
and `playerData.isDead` are synced from `ClientInfo`; the trailing
`lastAckedInput` field is the local variable `uint32_t lastAckedInput = 0`
(lines 607 and 695). -/
def BuildGameStateMessage (clients : List ClientInfo)
    (enemies : List (ℕ × EnemyState)) (timestamp : ℤ)
    (outgoingSequenceNumber : ℕ) : GameStateMessage :=
  { players := (clients.filter (fun c => c.isActive)).map
      (fun c => { c.playerData with score := c.score, isDead := c.isDead })
    enemies := enemies.map (fun p =>
      { enemyId := p.1, enemyType := p.2.enemyType, x := p.2.x, y := p.2.y
        bodyRotation := p.2.bodyRotation, barrelRotation := p.2.barrelRotation
        health := p.2.health, maxHealth := p.2.maxHealth })
    timestamp := timestamp
    sequenceNumber := outgoingSequenceNumber
    lastAckedInput := 0 }

/-!  GameServer::SimulatePlayerMovement (game_server.cpp lines 794-835).
`std::cos` / `std::sin` are oracle parameters; the float literal `3.14159f`
is the exact rational 314159/100000. -/

def PI_F : ℚ := 314159 / 100000

def SimulatePlayerStep (cosF sinF : ℚ → ℚ) (deltaTime : ℚ)
    (player : PlayerData) : PlayerData :=
  let rot :=
    if player.isMoving_left then player.bodyRotation - 200 * deltaTime
    else if player.isMoving_right then player.bodyRotation + 200 * deltaTime
    else player.bodyRotation
  let rot := NormalizeRotation rot
  let radians := rot * PI_F / 180
  let dirX := cosF radians
  let dirY := sinF radians
  let x :=
    if player.isMoving_forward then player.x + dirX * 150 * deltaTime
    else if player.isMoving_backward then player.x - dirX * 150 * deltaTime
    else player.x
  let y :=
    if player.isMoving_forward then player.y + dirY * 150 * deltaTime
    else if player.isMoving_backward then player.y - dirY * 150 * deltaTime
    else player.y
  { player with
    bodyRotation := rot
    x := max WorldConstants.MOVEMENT_MIN_X (min WorldConstants.MOVEMENT_MAX_X x)
    y := max WorldConstants.MOVEMENT_MIN_Y (min WorldConstants.MOVEMENT_MAX_Y y) }

def SimulatePlayerMovement (cosF sinF : ℚ → ℚ) (deltaTime : ℚ) :
    List ClientInfo → List ClientInfo
  | [] => []
  | c :: rest =>
      (if c.isActive
        then { c with playerData := SimulatePlayerStep cosF sinF deltaTime c.playerData }
        else c) :: SimulatePlayerMovement cosF sinF deltaTime rest

/-!  Death and respawn system (game_server.cpp lines 1837-2148). -/

/-- GameServer::HandlePlayerDeath (lines 1868-1908) for the found client. -/
def HandlePlayerDeath (client : ClientInfo) (killerId : ℕ) :
    ClientInfo × List ServerMessage :=
  if ¬ client.isActive then (client, [])
  else
    let deathX := client.playerData.x
    let deathY := client.playerData.y
    let oldScore := client.score
    let newScore := if oldScore - DEATH_PENALTY < 0 then 0 else oldScore - DEATH_PENALTY
    let actualPenalty := oldScore - newScore
    let c := { client with
      isDead := true
      deathTimer := RESPAWN_COOLDOWN
      score := newScore
      playerData := { client.playerData with
        isDead := true, score := newScore, health := 0 } }
    (c, [ServerMessage.playerDeath client.playerData.playerId killerId
      deathX deathY actualPenalty])

/-- GameServer::CheckPlayerDeaths (lines 1837-1856), per client: inactive or
already-dead players are skipped; health ≤ 0 triggers the death path with
killerId 0. -/
def CheckPlayerDeath (client : ClientInfo) : ClientInfo × List ServerMessage :=
  if client.isActive && !client.isDead then
    if client.playerData.health ≤ 0 then HandlePlayerDeath client 0
    else (client, [])
  else (client, [])

def MIN_SAFE_DISTANCE : ℚ := 200
def MAX_RESPAWN_ATTEMPTS : ℕ := 10

/-- The safety test inside GameServer::GetRandomRespawnPosition (lines
2101-2134): a candidate is rejected when its squared distance to a living
enemy or to an active, non-dead player is below MIN_SAFE_DISTANCE². -/
def IsSafeRespawnPosition (candX candY : ℚ) (enemies : List EnemyState)
    (clients : List ClientInfo) : Bool :=
  enemies.all (fun e => e.IsDead ||
    ¬((candX - e.x) * (candX - e.x) + (candY - e.y) * (candY - e.y)
      < MIN_SAFE_DISTANCE * MIN_SAFE_DISTANCE)) &&
  clients.all (fun c => !c.isActive || c.isDead ||
    ¬((candX - c.playerData.x) * (candX - c.playerData.x)
        + (candY - c.playerData.y) * (candY - c.playerData.y)
      < MIN_SAFE_DISTANCE * MIN_SAFE_DISTANCE))

/-- GameServer::GetRandomRespawnPosition (lines 2085-2148).  The PRNG draws
are the `candidates` stream; the first safe candidate among the first
MAX_RESPAWN_ATTEMPTS draws wins, otherwise the world center is used. -/
def GetRandomRespawnPosition (candidates : ℕ → ℚ × ℚ)
    (enemies : List EnemyState) (clients : List ClientInfo) : ℚ × ℚ :=
  match ((List.range MAX_RESPAWN_ATTEMPTS).map candidates).find?
      (fun cand => IsSafeRespawnPosition cand.1 cand.2 enemies clients) with
  | some p => p
  | none => (WorldConstants.CENTER_X, WorldConstants.CENTER_Y)

/-- GameServer::RespawnPlayer (lines 1950-1985).  `clients` is the full
client map used for the safety check (the respawning player is still dead
there, so it skips itself). -/
def RespawnPlayer (candidates : ℕ → ℚ × ℚ) (enemies : List EnemyState)
    (clients : List ClientInfo) (client : ClientInfo) :
    ClientInfo × List ServerMessage :=
  if ¬ client.isActive then (client, [])
  else
    let spawnPos := GetRandomRespawnPosition candidates enemies clients
    let c := { client with
      isDead := false
      deathTimer := 0
      playerData := { client.playerData with
        isDead := false
        health := client.playerData.maxHealth
        x := spawnPos.1
        y := spawnPos.2
        bodyRotation := 0
        barrelRotation := 0
        isMoving_forward := false
        isMoving_backward := false
        isMoving_left := false
        isMoving_right := false } }
    (c, [ServerMessage.playerRespawn client.playerData.playerId
      spawnPos.1 spawnPos.2 client.playerData.maxHealth])

/-- GameServer::UpdateDeadPlayers (lines 1914-1944), per client: only
active, dead players have their timer decremented; at ≤ 0 they respawn. -/
def UpdateDeadPlayer (candidates : ℕ → ℚ × ℚ) (enemies : List EnemyState)
    (clients : List ClientInfo) (deltaTime : ℚ) (client : ClientInfo) :
    ClientInfo × List ServerMessage :=
  if ¬(client.isActive && client.isDead) then (client, [])
  else
    let c := { client with deathTimer := client.deathTimer - deltaTime }
    if c.deathTimer ≤ 0 then RespawnPlayer candidates enemies clients c
    else (c, [])

/-!  Enemy spawning (game_server.cpp GameServer::UpdateEnemies lines 971-1000
and GameServer::RemoveDeadEnemies lines 1234-1246). -/

def enemySpawnInterval : ℚ := 5

/-- `3 * (activePlayerCount > 0 ? 1 : 0) + activePlayerCount` with players
counted as active and not dead (lines 977-983). -/
def dynamicMaxEnemies (clients : List ClientInfo) : ℕ :=
  let activePlayerCount := (clients.filter (fun c => c.isActive && !c.isDead)).length
  3 * (if activePlayerCount > 0 then 1 else 0) + activePlayerCount

/-- The spawn decision of UpdateEnemies (lines 973, 986-1000): advance the
timer; spawn one enemy and reset the timer when the timer has reached the
interval and the count is below the dynamic maximum.  Returns (new timer,
new enemy count). -/
def UpdateEnemiesSpawnStep (deltaTime enemySpawnTimer : ℚ) (enemyCount : ℕ)
    (clients : List ClientInfo) : ℚ × ℕ :=
  let timer := enemySpawnTimer + deltaTime
  if timer ≥ enemySpawnInterval ∧ enemyCount < dynamicMaxEnemies clients then
    (0, enemyCount + 1)
  else (timer, enemyCount)

/-- GameServer::RemoveDeadEnemies (lines 1234-1246). -/
def RemoveDeadEnemies (enemies : List (ℕ × EnemyState)) : List (ℕ × EnemyState) :=
  enemies.filter (fun p => !p.2.IsDead)

/-!  EnemyTank burst fire (EnemyTank.cpp TryShoot lines 1436-1464,
EnemyTank.h line 84 `CanShoot() { return shootCooldown <= 0.0f; }`). -/

inductive AIState where
  | idle
  | patrol
  | chase
  | attack
  | retreat
  deriving Repr, DecidableEq

structure EnemyShootState where
  currentAIState : AIState
  shootCooldown : ℚ
  shootCooldownTime : ℚ
  lastShotTime : ℚ
  shotsInBurst : ℕ
  maxBurstSize : ℕ
  deriving Repr, DecidableEq

def CanShoot (e : EnemyShootState) : Bool := e.shootCooldown ≤ 0

/-- EnemyTank::TryShoot: returns whether a shot was fired, with the updated
state.  On the burst-completing shot the fresh cooldown is multiplied by
1.5 and the burst counter resets. -/
def TryShoot (e : EnemyShootState) : Bool × EnemyShootState :=
  if ¬ CanShoot e then (false, e)
  else if e.currentAIState ≠ AIState.attack then (false, e)
  else
    let e1 := { e with
      shootCooldown := e.shootCooldownTime
      lastShotTime := 0
      shotsInBurst := e.shotsInBurst + 1 }
    if e1.shotsInBurst ≥ e1.maxBurstSize then
      (true, { e1 with shootCooldown := e1.shootCooldown * (3 / 2), shotsInBurst := 0 })
    else (true, e1)

/-- One shot fired as soon as the cooldown has run out: the per-tick
`shootCooldown -= dt` decrement (EnemyTank.cpp line 1349) eventually makes
CanShoot true; TryShoot reads the cooldown only through CanShoot, so the
elapsed state is represented with cooldown 0. -/
def CooldownElapsedShot (e : EnemyShootState) : EnemyShootState :=
  (TryShoot { e with shootCooldown := 0 }).2

/-!  Entity interpolation buffer (entity_interpolation.h / .cpp).
`std::sqrt` in the velocity clamp is an oracle parameter. -/

/-- entity_interpolation.h `EntitySnapshot`. -/
structure EntitySnapshot where
  timestamp : ℤ := 0
  posX : ℚ := 0
  posY : ℚ := 0
  bodyRotation : ℚ := 0
  barrelRotation : ℚ := 0
  isMoving_forward : Bool := false
  isMoving_backward : Bool := false
  isMoving_left : Bool := false
  isMoving_right : Bool := false
  velX : ℚ := 0
  velY : ℚ := 0
  angularVelocity : ℚ := 0
  deriving Repr, DecidableEq

def MAX_BUFFER_SIZE : ℕ := 64
def INTERPOLATION_DELAY_MS : ℤ := 100

/-- EntityInterpolationBuffer::CalculateVelocity (entity_interpolation.cpp
lines 489-516); `0.3f` is 3/10, `0.001f` is 1/1000. -/
def CalculateVelocity (sqrtF : ℚ → ℚ) (older newer : EntitySnapshot) : ℚ × ℚ :=
  if newer.timestamp ≤ older.timestamp then (0, 0)
  else
    let timeDiffSeconds : ℚ := ((newer.timestamp - older.timestamp : ℤ) : ℚ) / 1000
    if timeDiffSeconds > 3 / 10 then (0, 0)
    else if timeDiffSeconds < 1 / 1000 then (0, 0)
    else
      let vx := (newer.posX - older.posX) / timeDiffSeconds
      let vy := (newer.posY - older.posY) / timeDiffSeconds
      let velocityMagnitude := sqrtF (vx * vx + vy * vy)
      if velocityMagnitude > 500 then
        (vx * (500 / velocityMagnitude), vy * (500 / velocityMagnitude))
      else (vx, vy)

/-- The `while (angleDiff > 180) angleDiff -= 360` loop of
CalculateAngularVelocity. -/
def wrapHiLoop (r : ℚ) : ℚ :=
  if r > 180 then wrapHiLoop (r - 360) else r
termination_by (⌈(r - 180) / 360⌉).toNat
decreasing_by
  rename_i h
  have hpos : (0 : ℚ) < (r - 180) / 360 := by
    have : (0 : ℚ) < r - 180 := by linarith
    positivity
  have h1 : (0 : ℤ) < ⌈(r - 180) / 360⌉ := Int.ceil_pos.mpr hpos
  have heq : (r - 360 - 180) / 360 = (r - 180) / 360 - 1 := by ring
  have h2 : ⌈(r - 360 - 180) / 360⌉ = ⌈(r - 180) / 360⌉ - 1 := by
    rw [heq, Int.ceil_sub_one]
  omega

/-- The `while (angleDiff < -180) angleDiff += 360` loop of
CalculateAngularVelocity. -/
def wrapLoLoop (r : ℚ) : ℚ :=
  if r < -180 then wrapLoLoop (r + 360) else r
termination_by (⌈(-r - 180) / 360⌉).toNat
decreasing_by
  rename_i h
  have hpos : (0 : ℚ) < (-r - 180) / 360 := by
    have : (0 : ℚ) < -r - 180 := by linarith
    positivity
  have h1 : (0 : ℤ) < ⌈(-r - 180) / 360⌉ := Int.ceil_pos.mpr hpos
  have heq : (-(r + 360) - 180) / 360 = (-r - 180) / 360 - 1 := by ring
  have h2 : ⌈(-(r + 360) - 180) / 360⌉ = ⌈(-r - 180) / 360⌉ - 1 := by
    rw [heq, Int.ceil_sub_one]
  omega

/-- EntityInterpolationBuffer::CalculateAngularVelocity
(entity_interpolation.cpp lines 517-544). -/
def CalculateAngularVelocity (older newer : EntitySnapshot) : ℚ :=
  if newer.timestamp ≤ older.timestamp then 0
  else
    let timeDiffSeconds : ℚ := ((newer.timestamp - older.timestamp : ℤ) : ℚ) / 1000
    if timeDiffSeconds > 3 / 10 ∨ timeDiffSeconds < 1 / 1000 then 0
    else
      let angleDiff := wrapLoLoop (wrapHiLoop (newer.bodyRotation - older.bodyRotation))
      let angularVelocity := angleDiff / timeDiffSeconds
      max (-1080) (min 1080 angularVelocity)

/-- Lines 16-43 of AddSnapshot: attach velocity/angular velocity computed
against the chronologically previous snapshot (the element before the
`lower_bound` position; on a sorted buffer this is the last element whose
timestamp is below the new one). -/
def WithVelocity (sqrtF : ℚ → ℚ) (snapshots : List EntitySnapshot)
    (snapshot : EntitySnapshot) : EntitySnapshot :=
  match snapshots with
  | [] => { snapshot with velX := 0, velY := 0, angularVelocity := 0 }
  | _ :: _ =>
      match (snapshots.takeWhile
          (fun a => a.timestamp < snapshot.timestamp)).getLast? with
      | some prev =>
          { snapshot with
            velX := (CalculateVelocity sqrtF prev snapshot).1
            velY := (CalculateVelocity sqrtF prev snapshot).2
            angularVelocity := CalculateAngularVelocity prev snapshot }
      | none => { snapshot with velX := 0, velY := 0, angularVelocity := 0 }

/-- Lines 49-63 of AddSnapshot: the `lower_bound` insertion (modelled with
takeWhile/dropWhile, which coincides with lower_bound on a sorted buffer).
An entry with the same timestamp is overwritten instead of duplicated. -/
def InsertChronological (snapshots : List EntitySnapshot)
    (sv : EntitySnapshot) : List EntitySnapshot :=
  match snapshots.dropWhile (fun a : EntitySnapshot => a.timestamp < sv.timestamp) with
  | [] =>
      snapshots.takeWhile (fun a : EntitySnapshot => a.timestamp < sv.timestamp) ++ [sv]
  | b :: rest =>
      if b.timestamp = sv.timestamp then
        snapshots.takeWhile (fun a : EntitySnapshot => a.timestamp < sv.timestamp)
          ++ sv :: rest
      else
        snapshots.takeWhile (fun a : EntitySnapshot => a.timestamp < sv.timestamp)
          ++ sv :: b :: rest

/-- Lines 45-64 of AddSnapshot: an empty buffer or a timestamp ≥ the last
entry's appends (line 46-48) — so a timestamp equal to the newest entry's
duplicates it — otherwise the snapshot is inserted chronologically. -/
def AddSnapshotCore (sqrtF : ℚ → ℚ) (snapshots : List EntitySnapshot)
    (snapshot : EntitySnapshot) : List EntitySnapshot :=
  match snapshots.getLast? with
  | none => [WithVelocity sqrtF snapshots snapshot]
  | some last =>
      if (WithVelocity sqrtF snapshots snapshot).timestamp ≥ last.timestamp then
        snapshots ++ [WithVelocity sqrtF snapshots snapshot]
      else
        InsertChronological snapshots (WithVelocity sqrtF snapshots snapshot)

/-- EntityInterpolationBuffer::AddSnapshot (entity_interpolation.cpp lines
16-74): attach velocities, place the snapshot, then pop the front while the
size exceeds MAX_BUFFER_SIZE (lines 66-73). -/
def AddSnapshot (sqrtF : ℚ → ℚ) (snapshots : List EntitySnapshot)
    (snapshot : EntitySnapshot) : List EntitySnapshot :=
  (AddSnapshotCore sqrtF snapshots snapshot).drop
    ((AddSnapshotCore sqrtF snapshots snapshot).length - MAX_BUFFER_SIZE)

/-- The `while (size > 2 && front.timestamp < cutoff) pop_front` loop of
CleanupOldSnapshots. -/
def cleanupLoop (cutoffTime : ℤ) : List EntitySnapshot → List EntitySnapshot
  | [] => []
  | a :: rest =>
      if 2 < (a :: rest).length ∧ a.timestamp < cutoffTime then
        cleanupLoop cutoffTime rest
      else a :: rest

/-- EntityInterpolationBuffer::CleanupOldSnapshots (entity_interpolation.cpp
lines 197-210). -/
def CleanupOldSnapshots (snapshots : List EntitySnapshot)
    (currentRenderTime : ℤ) : List EntitySnapshot :=
  cleanupLoop (currentRenderTime - INTERPOLATION_DELAY_MS * 2) snapshots

/-- A call on an entity's interpolation buffer. -/
inductive BufferOp where
  | add (snapshot : EntitySnapshot)
  | cleanup (currentRenderTime : ℤ)
  deriving Repr, DecidableEq

def applyBufferOp (sqrtF : ℚ → ℚ) (buf : List EntitySnapshot) :
    BufferOp → List EntitySnapshot
  | BufferOp.add s => AddSnapshot sqrtF buf s
  | BufferOp.cleanup t => CleanupOldSnapshots buf t

/-- Any sequence of AddSnapshot / CleanupOldSnapshots calls starting from a
fresh (empty) buffer. -/
def runBufferOps (sqrtF : ℚ → ℚ) (ops : List BufferOp) : List EntitySnapshot :=
  ops.foldl (applyBufferOp sqrtF) []

/-- The buffer is in chronological order (non-decreasing timestamps). -/
abbrev BufferSorted (l : List EntitySnapshot) : Prop :=
  List.Pairwise (fun a b : EntitySnapshot => a.timestamp ≤ b.timestamp) l

/-!  Client-side reconciliation (network_client.cpp / client_prediction.cpp).
`std::cos`, `std::sin`, `std::atan2` are oracle parameters. -/

/-- client_prediction.h `InputState` (fields the replay path reads). -/
structure InputState where
  moveForward : Bool := false
  moveBackward : Bool := false
  turnLeft : Bool := false
  turnRight : Bool := false
  deltaTime : ℚ := 0
  timestamp : ℤ := 0
  sequenceNumber : ℕ := 0
  deriving Repr, DecidableEq

/-- client_prediction.h `BufferedInput`. -/
structure BufferedInput where
  input : InputState := {}
  needsReplay : Bool := false
  bufferTime : ℤ := 0
  deriving Repr, DecidableEq

/-- The local tank fields reconciliation touches. -/
structure TankState where
  posX : ℚ := 0
  posY : ℚ := 0
  bodyRotation : ℚ := 0
  barrelRotation : ℚ := 0
  deriving Repr, DecidableEq

/-- The NetworkClient fields the reconciliation path reads and writes. -/
structure ClientReconState where
  tank : TankState := {}
  isReconciling : Bool := false
  reconciliationTargetX : ℚ := 0
  reconciliationTargetY : ℚ := 0
  reconciliationTargetRotation : ℚ := 0
  inputBuffer : List BufferedInput := []
  lastAcknowledgedInputSeq : ℕ := 0
  deriving Repr, DecidableEq

def SMOOTH_CORRECTION_THRESHOLD : ℚ := 30
def SNAP_CORRECTION_THRESHOLD : ℚ := 50
def RECONCILIATION_RATE : ℚ := 6

/-- NetworkClient::ApplyInputToTank (network_client.cpp lines 88-140): body
rotation from A/D, normalization loops identical to the server's, movement
along the body facing, then the barrel aimed at the mouse via atan2 (the
finiteness guard always holds over ℚ). -/
def ApplyInputToTank (cosF sinF : ℚ → ℚ) (atan2F : ℚ → ℚ → ℚ)
    (tank : TankState) (input : InputState) (mouseX mouseY : ℚ) : TankState :=
  let rot :=
    if input.turnLeft then tank.bodyRotation - 200 * input.deltaTime
    else if input.turnRight then tank.bodyRotation + 200 * input.deltaTime
    else tank.bodyRotation
  let rot := NormalizeRotation rot
  let radians := rot * PI_F / 180
  let dirX := cosF radians
  let dirY := sinF radians
  let posX :=
    if input.moveForward then tank.posX + dirX * 150 * input.deltaTime
    else if input.moveBackward then tank.posX - dirX * 150 * input.deltaTime
    else tank.posX
  let posY :=
    if input.moveForward then tank.posY + dirY * 150 * input.deltaTime
    else if input.moveBackward then tank.posY - dirY * 150 * input.deltaTime
    else tank.posY
  let barrel := atan2F (mouseY - posY) (mouseX - posX) * 180 / PI_F
  { posX := posX, posY := posY, bodyRotation := rot, barrelRotation := barrel }

/-- ClientPrediction::MarkInputsForReplay (client_prediction.cpp lines
224-231): flag every buffered input with sequence ≥ fromSequence. -/
def MarkInputsForReplay (inputBuffer : List BufferedInput)
    (fromSequence : ℕ) : List BufferedInput :=
  inputBuffer.map (fun p =>
    if p.input.sequenceNumber ≥ fromSequence then { p with needsReplay := true }
    else p)

/-- ClientPrediction::GetInputsToReplay (client_prediction.cpp lines
237-250): the inputs flagged needsReplay, sorted by sequence number. -/
def GetInputsToReplay (inputBuffer : List BufferedInput) : List InputState :=
  ((inputBuffer.filter (fun p => p.needsReplay)).map (fun p => p.input)).mergeSort
    (fun a b => a.sequenceNumber ≤ b.sequenceNumber)

/-- ClientPrediction::ClearReplayFlags (client_prediction.cpp lines 255-260). -/
def ClearReplayFlags (inputBuffer : List BufferedInput) : List BufferedInput :=
  inputBuffer.map (fun p => { p with needsReplay := false })

/-- NetworkClient::ReplayInputsAfterCorrection (network_client.cpp lines
1378-1400).  Note: the `fromSequence` parameter is never read — the replayed
set is whatever is already flagged needsReplay. -/
def ReplayInputsAfterCorrection (cosF sinF : ℚ → ℚ) (atan2F : ℚ → ℚ → ℚ)
    (st : ClientReconState) (_fromSequence : ℕ)
    (mouseX mouseY : ℚ) : ClientReconState :=
  let inputsToReplay := GetInputsToReplay st.inputBuffer
  if inputsToReplay.isEmpty then st
  else
    { st with
      tank := inputsToReplay.foldl
        (fun t i => ApplyInputToTank cosF sinF atan2F t i mouseX mouseY) st.tank
      inputBuffer := ClearReplayFlags st.inputBuffer }

/-- NetworkClient::ApplyServerReconciliation, fresh-server-data analysis
(network_client.cpp lines 212-276), reached when prediction is enabled, the
client is connected with a nonzero id and a stashed authoritative state.
The source compares `error = sqrt(errorX² + errorY²)` against 5 / 30 / 50;
over exact rationals this is equivalent to comparing the squared error
against 25 / 900 / 2500, which keeps the embedding computable. -/
def ApplyServerReconciliation (cosF sinF : ℚ → ℚ) (atan2F : ℚ → ℚ → ℚ)
    (st : ClientReconState) (serverX serverY serverRot : ℚ) : ClientReconState :=
  let errorX := st.tank.posX - serverX
  let errorY := st.tank.posY - serverY
  let errorSq := errorX * errorX + errorY * errorY
  if errorSq < 5 * 5 then
    st
  else if errorSq < SMOOTH_CORRECTION_THRESHOLD * SMOOTH_CORRECTION_THRESHOLD then
    { st with
      reconciliationTargetX := serverX
      reconciliationTargetY := serverY
      reconciliationTargetRotation := serverRot
      isReconciling := true }
  else if errorSq < SNAP_CORRECTION_THRESHOLD * SNAP_CORRECTION_THRESHOLD then
    { st with
      tank := { st.tank with
        posX := st.tank.posX + (serverX - st.tank.posX) * (1 / 2)
        posY := st.tank.posY + (serverY - st.tank.posY) * (1 / 2)
        bodyRotation := serverRot }
      reconciliationTargetX := serverX
      reconciliationTargetY := serverY
      reconciliationTargetRotation := serverRot
      isReconciling := true
      inputBuffer := MarkInputsForReplay st.inputBuffer
        (st.lastAcknowledgedInputSeq + 1) }
  else
    let st1 := { st with
      tank := { st.tank with
        posX := serverX
        posY := serverY
        bodyRotation := serverRot }
      isReconciling := false }
    let barrelRad := st1.tank.barrelRotation * PI_F / 180
    ReplayInputsAfterCorrection cosF sinF atan2F st1
      (st.lastAcknowledgedInputSeq + 1)
      (st1.tank.posX + cosF barrelRad * 100)
      (st1.tank.posY + sinF barrelRad * 100)

/-- The ongoing smooth-correction step (network_client.cpp lines 142-173 and
179-208, two identical copies): lerp toward the stashed target with factor
`RECONCILIATION_RATE * 0.016`, rotate along the shortest signed difference,
and stop once within 2 units of the target (squared comparison as above). -/
def ContinueReconciliationStep (st : ClientReconState) : ClientReconState :=
  if ¬ st.isReconciling then st
  else
    let lerpFactor := RECONCILIATION_RATE * (16 / 1000)
    let posX := st.tank.posX + (st.reconciliationTargetX - st.tank.posX) * lerpFactor
    let posY := st.tank.posY + (st.reconciliationTargetY - st.tank.posY) * lerpFactor
    let rotDiff0 := st.reconciliationTargetRotation - st.tank.bodyRotation
    let rotDiff1 := if rotDiff0 > 180 then rotDiff0 - 360 else rotDiff0
    let rotDiff := if rotDiff1 < -180 then rotDiff1 + 360 else rotDiff1
    let distSq := (st.reconciliationTargetX - posX) * (st.reconciliationTargetX - posX)
      + (st.reconciliationTargetY - posY) * (st.reconciliationTargetY - posY)
    { st with
      tank := { st.tank with
        posX := posX
        posY := posY
        bodyRotation := st.tank.bodyRotation + rotDiff * lerpFactor }
      isReconciling := if distSq < 2 * 2 then false else st.isReconciling }

/-- Modelled from the spec's words for the hard-snap tier ("replay all
unacknowledged inputs from last_acked_seq + 1 onward against the snapped
state"): replay every buffered input with sequence ≥ fromSequence, in
sequence order, whether or not it was flagged needsReplay.  Stated only to
compare the spec against `ReplayInputsAfterCorrection`. -/
def specReplayAllUnacked (cosF sinF : ℚ → ℚ) (atan2F : ℚ → ℚ → ℚ)
    (st : ClientReconState) (fromSequence : ℕ)
    (mouseX mouseY : ℚ) : ClientReconState :=
  let inputs := ((st.inputBuffer.filter
      (fun p => p.input.sequenceNumber ≥ fromSequence)).map
        (fun p => p.input)).mergeSort
    (fun a b => a.sequenceNumber ≤ b.sequenceNumber)
  { st with
    tank := inputs.foldl
      (fun t i => ApplyInputToTank cosF sinF atan2F t i mouseX mouseY) st.tank }

/-!  Concrete inputs used by counterexamples and witnesses. -/

/-- A client whose last received sequence is 100 (with 100 recorded). -/
def C1client : ClientInfo :=
  { address := 1, port := 9, playerData := { playerId := 1 }, isActive := true,
    lastReceivedSequenceNumber := 100, receivedSequenceNumbers := {100},
    lastAcknowledgedInputSeq := 100 }

/-- An input whose sequence 30 is stale: 30 + 50 < 100. -/
def C1msg : PlayerInputMessage :=
  { playerId := 1, isMoving_forward := true, isMoving_backward := false,
    isMoving_left := false, isMoving_right := false, timestamp := 1000,
    sequenceNumber := 30, barrelRotation := 90 }

/-- An alive player whose health has just reached 0. -/
def C5dying : ClientInfo :=
  { playerData := { playerId := 3, health := 0, x := 100, y := 100 },
    score := 40, isActive := true, isDead := false }

/-- A dead player whose 5-second respawn timer is about to expire. -/
def C5dead : ClientInfo :=
  { playerData := { playerId := 4 }, isActive := true, isDead := true,
    deathTimer := 5 }

/-- A Red-style enemy in Attack state, off cooldown, with a 3-shot burst. -/
def C8enemy : EnemyShootState :=
  { currentAIState := AIState.attack, shootCooldown := 0, shootCooldownTime := 2,
    lastShotTime := 0, shotsInBurst := 0, maxBurstSize := 3 }

/-- A client state 100 units off the server position (700,480) vs (600,480),
with one unacknowledged input (sequence 43 = last acked + 1) that is not
flagged needsReplay; it commands forward for dt = 1/50 s. -/
def C3input : InputState :=
  { moveForward := true, deltaTime := 1 / 50, timestamp := 0, sequenceNumber := 43 }

def C3state : ClientReconState :=
  { tank := { posX := 700, posY := 480, bodyRotation := 0, barrelRotation := 0 },
    isReconciling := false,
    reconciliationTargetX := 0, reconciliationTargetY := 0,
    reconciliationTargetRotation := 0,
    inputBuffer := [{ input := C3input, needsReplay := false, bufferTime := 0 }],
    lastAcknowledgedInputSeq := 42 }

/-- C3state hard-snapped to the server position, as the spec's tier-4 would
replay against. -/
def C3snapped : ClientReconState :=
  { C3state with
    tank := { C3state.tank with posX := 600, posY := 480, bodyRotation := 0 }
    isReconciling := false }

end TankGame

/-!  Theorems. -/

namespace TankGame

theorem fract360_nonneg (r : ℚ) : 0 ≤ fract360 r := by
  have h := Int.floor_le (r / 360)
  unfold fract360
  have h360 : (0 : ℚ) < 360 := by norm_num
  nlinarith [h]

theorem fract360_lt (r : ℚ) : fract360 r < 360 := by
  have h := Int.lt_floor_add_one (r / 360)
  unfold fract360
  nlinarith [h]

theorem fract360_eq_self {r : ℚ} (h1 : 0 ≤ r) (h2 : r < 360) : fract360 r = r := by
  have hfloor : ⌊r / 360⌋ = 0 := by
    apply Int.floor_eq_zero_iff.mpr
    constructor
    · positivity
    · rw [div_lt_one (by norm_num : (0:ℚ) < 360)]; exact h2
  unfold fract360
  rw [hfloor]
  push_cast
  ring

theorem fract360_add_int (r : ℚ) (k : ℤ) : fract360 (r + 360 * k) = fract360 r := by
  have hdiv : (r + 360 * k) / 360 = r / 360 + k := by
    field_simp
    ring
  unfold fract360
  rw [hdiv, Int.floor_add_int]
  push_cast
  ring

theorem fract360_add_360 (r : ℚ) : fract360 (r + 360) = fract360 r := by
  have := fract360_add_int r 1
  push_cast at this
  simpa using this

theorem fract360_sub_360 (r : ℚ) : fract360 (r - 360) = fract360 r := by
  have h : r - 360 = r + 360 * ((-1 : ℤ) : ℚ) := by push_cast; ring
  rw [h]
  exact_mod_cast fract360_add_int r (-1)

theorem addLoop_nonneg (r : ℚ) : 0 ≤ addLoop r := by
  induction r using addLoop.induct with
  | case1 r h ih => rw [addLoop]; simpa [h] using ih
  | case2 r h => rw [addLoop]; simp [h]; linarith [not_lt.mp h]

theorem addLoop_lt {r : ℚ} (h : r < 360) : addLoop r < 360 := by
  induction r using addLoop.induct with
  | case1 r hneg ih =>
      rw [addLoop]
      simp only [hneg, if_true]
      exact ih (by linarith)
  | case2 r hnonneg => rw [addLoop]; simpa [hnonneg] using h

theorem addLoop_fract (r : ℚ) : fract360 (addLoop r) = fract360 r := by
  induction r using addLoop.induct with
  | case1 r hneg ih =>
      rw [addLoop]
      simp only [hneg, if_true]
      rw [ih, fract360_add_360]
  | case2 r hnonneg => rw [addLoop]; simp [hnonneg]

theorem subLoop_lt (r : ℚ) : subLoop r < 360 := by
  induction r using subLoop.induct with
  | case1 r h ih => rw [subLoop]; simpa [h] using ih
  | case2 r h => rw [subLoop]; simp [h]; linarith [not_le.mp (by simpa using h)]

theorem subLoop_nonneg {r : ℚ} (h : 0 ≤ r) : 0 ≤ subLoop r := by
  induction r using subLoop.induct with
  | case1 r hge ih =>
      rw [subLoop]
      simp only [hge, if_true]
      exact ih (by have := hge; linarith [(by simpa using hge : (360:ℚ) ≤ r)])
  | case2 r hlt => rw [subLoop]; simpa [hlt] using h

theorem subLoop_fract (r : ℚ) : fract360 (subLoop r) = fract360 r := by
  induction r using subLoop.induct with
  | case1 r hge ih =>
      rw [subLoop]
      simp only [hge, if_true]
      rw [ih, fract360_sub_360]
  | case2 r hlt => rw [subLoop]; simp [hlt]

theorem NormalizeRotation_nonneg (r : ℚ) : 0 ≤ NormalizeRotation r :=
  subLoop_nonneg (addLoop_nonneg r)

theorem NormalizeRotation_lt (r : ℚ) : NormalizeRotation r < 360 :=
  subLoop_lt (addLoop r)

theorem NormalizeRotation_eq_fract360 (r : ℚ) : NormalizeRotation r = fract360 r := by
  have h1 : fract360 (NormalizeRotation r) = fract360 r := by
    unfold NormalizeRotation
    rw [subLoop_fract, addLoop_fract]
  calc NormalizeRotation r
      = fract360 (NormalizeRotation r) :=
        (fract360_eq_self (NormalizeRotation_nonneg r) (NormalizeRotation_lt r)).symm
    _ = fract360 r := h1

theorem NormalizeRotation_of_in_range {r : ℚ} (h1 : 0 ≤ r) (h2 : r < 360) :
    NormalizeRotation r = r := by
  rw [NormalizeRotation_eq_fract360, fract360_eq_self h1 h2]

theorem fmodQ_360_of_nonneg {r : ℚ} (h : 0 ≤ r) : fmodQ r 360 = fract360 r := by
  unfold fmodQ truncQ fract360
  have hq : 0 ≤ r / 360 := by positivity
  simp [hq]

theorem fmodQ_360_gt_neg (r : ℚ) : -360 < fmodQ r 360 := by
  unfold fmodQ truncQ
  by_cases h : 0 ≤ r / 360
  · simp only [h, if_true]
    have := Int.floor_le (r / 360)
    nlinarith [this, h]
  · simp only [h, if_false]
    have := Int.ceil_lt_add_one (r / 360)
    nlinarith [this]

theorem fmodQ_sub_int_mul (r : ℚ) : ∃ k : ℤ, fmodQ r 360 = r + 360 * k := by
  refine ⟨-(truncQ (r / 360)), ?_⟩
  unfold fmodQ
  push_cast
  ring

theorem specNormalizeRotation_eq_fract360 (r : ℚ) :
    specNormalizeRotation r = fract360 r := by
  obtain ⟨k, hk⟩ := fmodQ_sub_int_mul r
  have hy : 0 ≤ fmodQ r 360 + 360 := by linarith [fmodQ_360_gt_neg r]
  unfold specNormalizeRotation
  rw [fmodQ_360_of_nonneg hy, hk]
  have : r + 360 * (k : ℚ) + 360 = r + 360 * ((k + 1 : ℤ) : ℚ) := by push_cast; ring
  rw [this, fract360_add_int]

/-- C7: NormalizeRotation(r) equals `((r mod 360) + 360) mod 360` (with
C-style truncating fmod), its result lies in `[0, 360)`, and the function is
idempotent. -/
theorem C7_normalize_rotation (r : ℚ) :
    NormalizeRotation r = specNormalizeRotation r ∧
    0 ≤ NormalizeRotation r ∧ NormalizeRotation r < 360 ∧
    NormalizeRotation (NormalizeRotation r) = NormalizeRotation r := by
  refine ⟨?_, NormalizeRotation_nonneg r, NormalizeRotation_lt r, ?_⟩
  · rw [NormalizeRotation_eq_fract360, specNormalizeRotation_eq_fract360]
  · rw [NormalizeRotation_eq_fract360 (NormalizeRotation r),
      fract360_eq_self (NormalizeRotation_nonneg r) (NormalizeRotation_lt r)]

/-- C1 counterexample: the input with stale sequence 30 (30 + 50 < 100) fails
ValidateSequenceNumber, yet HandlePlayerInput stores its movement flags,
overwrites lastAcknowledgedInputSeq and sends an InputAck for it. -/
theorem C1_counterexample :
    ValidateSequenceNumber C1client C1msg.sequenceNumber = false ∧
    C1client.playerData.isMoving_forward = false ∧
    (HandlePlayerInput C1client C1msg true).1.playerData.isMoving_forward = true ∧
    (HandlePlayerInput C1client C1msg true).1.lastAcknowledgedInputSeq = 30 ∧
    (HandlePlayerInput C1client C1msg true).2 = [ServerMessage.inputAck 1 30] := by
  refine ⟨by decide, by decide, ?_, ?_, ?_⟩ <;> decide

/-- C1 (amended): ValidateSequenceNumber classifies a message as invalid
exactly when its sequence was already received or sequence + 50 (uint32)
is below the client's last-received sequence, but HandlePlayerInput only
logs that verdict: for every input from a known client at the matching
address with a valid player id, the stored movement flags, barrel rotation
and last-acknowledged input sequence are overwritten from the message and
an InputAck for its sequence is sent, regardless of the verdict. -/
theorem C1_input_handling (client : ClientInfo) (msg : PlayerInputMessage)
    (hid : IsValidPlayerId msg.playerId = true) :
    (ValidateSequenceNumber client msg.sequenceNumber = false ↔
      msg.sequenceNumber ∈ client.receivedSequenceNumbers ∨
        (msg.sequenceNumber + OUT_OF_ORDER_THRESHOLD) % U32_MOD
          < client.lastReceivedSequenceNumber) ∧
    (HandlePlayerInput client msg true).1.playerData.isMoving_forward = msg.isMoving_forward ∧
    (HandlePlayerInput client msg true).1.playerData.isMoving_backward = msg.isMoving_backward ∧
    (HandlePlayerInput client msg true).1.playerData.isMoving_left = msg.isMoving_left ∧
    (HandlePlayerInput client msg true).1.playerData.isMoving_right = msg.isMoving_right ∧
    (HandlePlayerInput client msg true).1.playerData.barrelRotation
      = NormalizeRotation msg.barrelRotation ∧
    (HandlePlayerInput client msg true).1.lastAcknowledgedInputSeq = msg.sequenceNumber ∧
    (HandlePlayerInput client msg true).2
      = [ServerMessage.inputAck msg.playerId msg.sequenceNumber] := by
  constructor
  · unfold ValidateSequenceNumber
    split_ifs with h1 h2 <;> simp_all
  · simp [HandlePlayerInput, hid, RecordReceivedSequence]

theorem C1_input_handling_witness :
    IsValidPlayerId C1msg.playerId = true ∧
    (HandlePlayerInput C1client C1msg true).1.lastAcknowledgedInputSeq
      = C1msg.sequenceNumber ∧
    (HandlePlayerInput C1client C1msg true).2
      = [ServerMessage.inputAck C1msg.playerId C1msg.sequenceNumber] :=
  ⟨by decide,
    (C1_input_handling C1client C1msg (by decide)).2.2.2.2.2.2.1,
    (C1_input_handling C1client C1msg (by decide)).2.2.2.2.2.2.2⟩

/-- C2 counterexample: a Join with name "Ada" and preferred color "purple"
(not in the spec's whitelist) is not rejected: a player is created and
"purple" is stored as the joined player's color. -/
theorem C2_counterexample :
    (HandleJoinRequest ⟨"Ada", "purple", 1000, 1⟩ "red" 1).isSome = true ∧
    (HandleJoinRequest ⟨"Ada", "purple", 1000, 1⟩ "red" 1).map
      (fun c => c.playerData.color) = some "purple" ∧
    "purple" ∉ specColorWhitelist := by
  refine ⟨by decide, by decide, by decide⟩

/-- C2 (amended): the server rejects a Join only when the player name is
invalid (empty or longer than 50); the preferred color is never checked
against the {red, blue, green, black} whitelist: any non-empty color string
is stored verbatim as the joined player's color (a color longer than 20
characters merely triggers a warning), and an empty color receives the
server-assigned color. -/
theorem C2_join_handling (msg : JoinMessage) (assignedColor : String) (nid : ℕ)
    (hname : IsValidPlayerName msg.playerName = true) :
    (HandleJoinRequest msg assignedColor nid).map (fun c => c.playerData.color)
      = some (if ¬ msg.preferredColor.isEmpty then msg.preferredColor else assignedColor) ∧
    (HandleJoinRequest msg assignedColor nid).map (fun c => c.playerData.playerId)
      = some nid ∧
    (HandleJoinRequest msg assignedColor nid).map
        (fun c => (c.playerData.x, c.playerData.y, c.playerData.health,
          c.playerData.maxHealth, c.isActive))
      = some (640, 480, 100, 100, true) ∧
    (∀ msg2 : JoinMessage, IsValidPlayerName msg2.playerName = false →
      HandleJoinRequest msg2 assignedColor nid = none) := by
  refine ⟨?_, ?_, ?_, ?_⟩
  · simp [HandleJoinRequest, hname, RecordReceivedSequence]
  · simp [HandleJoinRequest, hname, RecordReceivedSequence]
  · simp [HandleJoinRequest, hname, RecordReceivedSequence,
      WorldConstants.CENTER_X, WorldConstants.CENTER_Y,
      WorldConstants.WORLD_WIDTH, WorldConstants.WORLD_HEIGHT]
    norm_num
  · intro msg2 h2
    simp [HandleJoinRequest, h2]

theorem C2_join_handling_witness :
    IsValidPlayerName "Ada" = true ∧
    (HandleJoinRequest ⟨"Ada", "", 1000, 1⟩ "blue" 2).map
      (fun c => c.playerData.color) = some "blue" := by
  have h := C2_join_handling ⟨"Ada", "", 1000, 1⟩ "blue" 2 (by decide)
  exact ⟨by decide, by simpa using h.1⟩

/-- C10: every GameState packet the server builds carries a lastAckedInput
field equal to 0 regardless of the recipients' processed input sequences,
while per-input acknowledgment travels in separate InputAck messages whose
acknowledged sequence equals the input's sequence. -/
theorem C10_game_state_acks :
    (∀ (clients : List ClientInfo) (enemies : List (ℕ × EnemyState))
        (timestamp : ℤ) (outSeq : ℕ),
      (BuildGameStateMessage clients enemies timestamp outSeq).lastAckedInput = 0) ∧
    (∀ (client : ClientInfo) (msg : PlayerInputMessage) (addressMatches : Bool),
      (HandlePlayerInput client msg addressMatches).2
        = if IsValidPlayerId msg.playerId && addressMatches
          then [ServerMessage.inputAck msg.playerId msg.sequenceNumber]
          else []) := by
  constructor
  · intro clients enemies timestamp outSeq
    rfl
  · intro client msg addressMatches
    by_cases hid : IsValidPlayerId msg.playerId
    · by_cases haddr : addressMatches
      · simp [HandlePlayerInput, hid, haddr]
      · simp [HandlePlayerInput, hid] at haddr ⊢
        simp [haddr]
    · simp [HandlePlayerInput, hid]

/-- C4: each simulation tick rotates an active player's body by `-200·dt`
when the left flag is set (else `+200·dt` when right), normalizes the result
into `[0, 360)`, advances the position by `150·dt` along (cos, sin) of the
body rotation when the forward flag is set (backward subtracts the same),
and clamps the result into the movement rectangle
`[MOVEMENT_MIN_X, MOVEMENT_MAX_X] × [MOVEMENT_MIN_Y, MOVEMENT_MAX_Y]`;
inactive players are skipped. -/
theorem C4_player_movement (cosF sinF : ℚ → ℚ) (deltaTime : ℚ) (p : PlayerData) :
    (SimulatePlayerStep cosF sinF deltaTime p).bodyRotation
      = NormalizeRotation
          (if p.isMoving_left then p.bodyRotation - 200 * deltaTime
           else if p.isMoving_right then p.bodyRotation + 200 * deltaTime
           else p.bodyRotation) ∧
    0 ≤ (SimulatePlayerStep cosF sinF deltaTime p).bodyRotation ∧
    (SimulatePlayerStep cosF sinF deltaTime p).bodyRotation < 360 ∧
    (SimulatePlayerStep cosF sinF deltaTime p).x
      = ClampPositionX
          (if p.isMoving_forward then
            p.x + cosF ((SimulatePlayerStep cosF sinF deltaTime p).bodyRotation * PI_F / 180)
              * 150 * deltaTime
           else if p.isMoving_backward then
            p.x - cosF ((SimulatePlayerStep cosF sinF deltaTime p).bodyRotation * PI_F / 180)
              * 150 * deltaTime
           else p.x) ∧
    (SimulatePlayerStep cosF sinF deltaTime p).y
      = ClampPositionY
          (if p.isMoving_forward then
            p.y + sinF ((SimulatePlayerStep cosF sinF deltaTime p).bodyRotation * PI_F / 180)
              * 150 * deltaTime
           else if p.isMoving_backward then
            p.y - sinF ((SimulatePlayerStep cosF sinF deltaTime p).bodyRotation * PI_F / 180)
              * 150 * deltaTime
           else p.y) ∧
    WorldConstants.MOVEMENT_MIN_X ≤ (SimulatePlayerStep cosF sinF deltaTime p).x ∧
    (SimulatePlayerStep cosF sinF deltaTime p).x ≤ WorldConstants.MOVEMENT_MAX_X ∧
    WorldConstants.MOVEMENT_MIN_Y ≤ (SimulatePlayerStep cosF sinF deltaTime p).y ∧
    (SimulatePlayerStep cosF sinF deltaTime p).y ≤ WorldConstants.MOVEMENT_MAX_Y ∧
    (∀ clients : List ClientInfo,
      SimulatePlayerMovement cosF sinF deltaTime clients
        = clients.map (fun c =>
            if c.isActive
            then { c with playerData := SimulatePlayerStep cosF sinF deltaTime c.playerData }
            else c)) := by
  have hxle : WorldConstants.MOVEMENT_MIN_X ≤ WorldConstants.MOVEMENT_MAX_X := by
    norm_num [WorldConstants.MOVEMENT_MIN_X, WorldConstants.MOVEMENT_MAX_X,
      WorldConstants.PLAYABLE_MIN_X, WorldConstants.PLAYABLE_MAX_X,
      WorldConstants.TANK_RADIUS, WorldConstants.BORDER_THICKNESS,
      WorldConstants.WORLD_WIDTH]
  have hyle : WorldConstants.MOVEMENT_MIN_Y ≤ WorldConstants.MOVEMENT_MAX_Y := by
    norm_num [WorldConstants.MOVEMENT_MIN_Y, WorldConstants.MOVEMENT_MAX_Y,
      WorldConstants.PLAYABLE_MIN_Y, WorldConstants.PLAYABLE_MAX_Y,
      WorldConstants.TANK_RADIUS, WorldConstants.BORDER_THICKNESS,
      WorldConstants.WORLD_HEIGHT]
  refine ⟨rfl, NormalizeRotation_nonneg _, NormalizeRotation_lt _, rfl, rfl,
    le_max_left _ _, max_le hxle (min_le_left _ _),
    le_max_left _ _, max_le hyle (min_le_left _ _), ?_⟩
  intro clients
  induction clients with
  | nil => rfl
  | cons c rest ih => simp [SimulatePlayerMovement, ih]

/-- C5: a death of an active, alive player with health ≤ 0 marks the player
dead, starts the 5-second timer, applies the −100 score penalty floored at 0,
zeroes the health and broadcasts a PlayerDeath; when the timer expires the
player respawns alive with health = maxHealth at the chosen position, which
is either safe (squared distance ≥ 200² from every living enemy and every
active, alive player, drawn from at most 10 candidates) or the world center,
and a PlayerRespawn is broadcast. -/
theorem C5_death_and_respawn (client : ClientInfo) (candidates : ℕ → ℚ × ℚ)
    (enemies : List EnemyState) (clients : List ClientInfo) (deltaTime : ℚ)
    (hact : client.isActive = true) :
    (client.isDead = false → client.playerData.health ≤ 0 →
      (CheckPlayerDeath client).1.isDead = true ∧
      (CheckPlayerDeath client).1.deathTimer = 5 ∧
      (CheckPlayerDeath client).1.score = max (client.score - 100) 0 ∧
      (CheckPlayerDeath client).1.playerData.health = 0 ∧
      (CheckPlayerDeath client).2
        = [ServerMessage.playerDeath client.playerData.playerId 0
            client.playerData.x client.playerData.y
            (client.score - max (client.score - 100) 0)]) ∧
    (client.isDead = true → client.deathTimer - deltaTime ≤ 0 →
      (UpdateDeadPlayer candidates enemies clients deltaTime client).1.isDead = false ∧
      (UpdateDeadPlayer candidates enemies clients deltaTime client).1.playerData.isDead
        = false ∧
      (UpdateDeadPlayer candidates enemies clients deltaTime client).1.playerData.health
        = client.playerData.maxHealth ∧
      (UpdateDeadPlayer candidates enemies clients deltaTime client).1.playerData.x
        = (GetRandomRespawnPosition candidates enemies clients).1 ∧
      (UpdateDeadPlayer candidates enemies clients deltaTime client).1.playerData.y
        = (GetRandomRespawnPosition candidates enemies clients).2 ∧
      (UpdateDeadPlayer candidates enemies clients deltaTime client).2
        = [ServerMessage.playerRespawn client.playerData.playerId
            (GetRandomRespawnPosition candidates enemies clients).1
            (GetRandomRespawnPosition candidates enemies clients).2
            client.playerData.maxHealth]) ∧
    (IsSafeRespawnPosition (GetRandomRespawnPosition candidates enemies clients).1
        (GetRandomRespawnPosition candidates enemies clients).2 enemies clients = true ∨
      GetRandomRespawnPosition candidates enemies clients
        = (WorldConstants.CENTER_X, WorldConstants.CENTER_Y)) ∧
    (∀ px py, IsSafeRespawnPosition px py enemies clients = true →
      (∀ e ∈ enemies, e.IsDead = false →
        40000 ≤ (px - e.x) * (px - e.x) + (py - e.y) * (py - e.y)) ∧
      (∀ c ∈ clients, c.isActive = true → c.isDead = false →
        40000 ≤ (px - c.playerData.x) * (px - c.playerData.x)
          + (py - c.playerData.y) * (py - c.playerData.y))) := by
  refine ⟨?_, ?_, ?_, ?_⟩
  · intro hdead hhp
    simp [CheckPlayerDeath, hact, hdead, hhp, HandlePlayerDeath, RESPAWN_COOLDOWN,
      DEATH_PENALTY]
    split_ifs with h <;> omega
  · intro hdead htimer
    have hcond : ¬(client.deathTimer - deltaTime > 0) := by linarith
    simp [UpdateDeadPlayer, hact, hdead, RespawnPlayer, htimer]
  · unfold GetRandomRespawnPosition
    cases hfind : ((List.range MAX_RESPAWN_ATTEMPTS).map candidates).find?
        (fun cand => IsSafeRespawnPosition cand.1 cand.2 enemies clients) with
    | none => right; simp [hfind]
    | some p =>
        left
        simp only [hfind]
        have h := List.find?_some hfind
        simpa using h
  · intro px py hsafe
    simp only [IsSafeRespawnPosition, Bool.and_eq_true, List.all_eq_true] at hsafe
    obtain ⟨he, hc⟩ := hsafe
    constructor
    · intro e he2 hdead
      have h := he e he2
      rw [hdead] at h
      simp only [Bool.false_or, decide_eq_true_eq, not_lt] at h
      norm_num [MIN_SAFE_DISTANCE] at h
      linarith
    · intro c hc2 hactc hdeadc
      have h := hc c hc2
      rw [hactc, hdeadc] at h
      simp only [Bool.not_true, Bool.false_or, decide_eq_true_eq, not_lt] at h
      norm_num [MIN_SAFE_DISTANCE] at h
      linarith

theorem C5_death_and_respawn_witness :
    ((CheckPlayerDeath C5dying).1.isDead = true ∧
      (CheckPlayerDeath C5dying).1.score = 0 ∧
      (CheckPlayerDeath C5dying).1.playerData.health = 0) ∧
    ((UpdateDeadPlayer (fun _ => (100, 100)) [] [] 5 C5dead).1.isDead = false ∧
      (UpdateDeadPlayer (fun _ => (100, 100)) [] [] 5 C5dead).1.playerData.health
        = 100) := by
  have hdeath := (C5_death_and_respawn C5dying (fun _ => (100, 100)) [] [] 5 rfl).1
    rfl (by norm_num [C5dying])
  have hresp := (C5_death_and_respawn C5dead (fun _ => (100, 100)) [] [] 5 rfl).2.1
    rfl (by norm_num [C5dead])
  refine ⟨⟨hdeath.1, ?_, hdeath.2.2.2.1⟩, hresp.1, hresp.2.2.1⟩
  rw [hdeath.2.2.1]
  norm_num [C5dying]

theorem CooldownElapsedShot_burst_progress (k : ℕ) :
    ∀ e : EnemyShootState, e.currentAIState = AIState.attack →
    e.shotsInBurst + k < e.maxBurstSize →
    (CooldownElapsedShot^[k] e).shotsInBurst = e.shotsInBurst + k ∧
    (CooldownElapsedShot^[k] e).currentAIState = AIState.attack ∧
    (CooldownElapsedShot^[k] e).maxBurstSize = e.maxBurstSize ∧
    (CooldownElapsedShot^[k] e).shootCooldownTime = e.shootCooldownTime := by
  induction k with
  | zero =>
      intro e hs _
      simpa using hs
  | succ k ih =>
      intro e hs hlt
      rw [Function.iterate_succ_apply]
      have hburst : ¬ (e.maxBurstSize ≤ e.shotsInBurst + 1) := by omega
      have hone : CooldownElapsedShot e
          = { e with
              shootCooldown := e.shootCooldownTime
              lastShotTime := 0
              shotsInBurst := e.shotsInBurst + 1 } := by
        simp [CooldownElapsedShot, TryShoot, CanShoot, hs, hburst]
      rw [hone]
      have := ih { e with
        shootCooldown := e.shootCooldownTime
        lastShotTime := 0
        shotsInBurst := e.shotsInBurst + 1 } (by simpa using hs) (by simp; omega)
      simpa [Nat.add_assoc, Nat.add_comm, Nat.add_left_comm] using this

/-- C8: TryShoot fires exactly when the cooldown is ≤ 0 and the AI state is
Attack; a non-firing call leaves the state unchanged; a firing call resets
the cooldown to the type's base cooldown, except the burst-completing shot
(the `burst_size`-th consecutive shot), after which the cooldown is the base
multiplied by 1.5 and the burst counter resets to 0. -/
theorem C8_try_shoot (e : EnemyShootState) :
    ((TryShoot e).1 = true ↔ e.shootCooldown ≤ 0 ∧ e.currentAIState = AIState.attack) ∧
    ((TryShoot e).1 = false → (TryShoot e).2 = e) ∧
    ((TryShoot e).1 = true →
      if e.shotsInBurst + 1 ≥ e.maxBurstSize then
        (TryShoot e).2.shootCooldown = e.shootCooldownTime * (3 / 2) ∧
        (TryShoot e).2.shotsInBurst = 0
      else
        (TryShoot e).2.shootCooldown = e.shootCooldownTime ∧
        (TryShoot e).2.shotsInBurst = e.shotsInBurst + 1) ∧
    (e.currentAIState = AIState.attack → e.shotsInBurst = 0 → 0 < e.maxBurstSize →
      (CooldownElapsedShot^[e.maxBurstSize] e).shootCooldown
        = e.shootCooldownTime * (3 / 2) ∧
      (CooldownElapsedShot^[e.maxBurstSize] e).shotsInBurst = 0) := by
  have hchar : ∀ (h1 : e.shootCooldown ≤ 0) (h2 : e.currentAIState = AIState.attack),
      TryShoot e = if e.maxBurstSize ≤ e.shotsInBurst + 1 then
          (true, { e with
            shootCooldown := e.shootCooldownTime * (3 / 2)
            lastShotTime := 0
            shotsInBurst := 0 })
        else
          (true, { e with
            shootCooldown := e.shootCooldownTime
            lastShotTime := 0
            shotsInBurst := e.shotsInBurst + 1 }) := by
    intro h1 h2
    simp [TryShoot, CanShoot, h1, h2]
  have hno : ∀ (_ : ¬(e.shootCooldown ≤ 0 ∧ e.currentAIState = AIState.attack)),
      TryShoot e = (false, e) := by
    intro h
    by_cases h1 : e.shootCooldown ≤ 0
    · have h2 : e.currentAIState ≠ AIState.attack := by
        intro hc; exact h ⟨h1, hc⟩
      simp [TryShoot, CanShoot, h1, h2]
    · simp [TryShoot, CanShoot, h1]
  refine ⟨?_, ?_, ?_, ?_⟩
  · constructor
    · intro h
      by_cases hcond : e.shootCooldown ≤ 0 ∧ e.currentAIState = AIState.attack
      · exact hcond
      · rw [hno hcond] at h; simp at h
    · rintro ⟨h1, h2⟩
      rw [hchar h1 h2]
      split_ifs <;> simp
  · intro h
    by_cases hcond : e.shootCooldown ≤ 0 ∧ e.currentAIState = AIState.attack
    · rw [hchar hcond.1 hcond.2] at h ⊢
      split_ifs at h
    · rw [hno hcond]
  · intro h
    by_cases hcond : e.shootCooldown ≤ 0 ∧ e.currentAIState = AIState.attack
    · rw [hchar hcond.1 hcond.2]
      by_cases h3 : e.maxBurstSize ≤ e.shotsInBurst + 1
      · rw [if_pos h3, if_pos (by omega)]
        simp
      · rw [if_neg h3, if_neg (by omega)]
        simp
    · rw [hno hcond] at h; simp at h
  · intro hs h0 hpos
    obtain ⟨n, hn⟩ : ∃ n, e.maxBurstSize = n + 1 := ⟨e.maxBurstSize - 1, by omega⟩
    rw [hn, Function.iterate_succ_apply']
    have hprog := CooldownElapsedShot_burst_progress n e hs (by omega)
    obtain ⟨hshots, hstate, hmax, hbase⟩ := hprog
    set e1 := CooldownElapsedShot^[n] e with he1
    have hfin : e1.maxBurstSize ≤ e1.shotsInBurst + 1 := by
      rw [hshots, hmax, h0, hn]
      omega
    constructor
    · rw [← hbase]
      simp [CooldownElapsedShot, TryShoot, CanShoot, hstate, hfin]
    · simp [CooldownElapsedShot, TryShoot, CanShoot, hstate, hfin]

theorem C8_try_shoot_witness :
    (CooldownElapsedShot^[3] C8enemy).shootCooldown = 3 ∧
    (CooldownElapsedShot^[3] C8enemy).shotsInBurst = 0 := by
  have h := (C8_try_shoot C8enemy).2.2.2 rfl rfl (by decide)
  refine ⟨?_, h.2⟩
  have h1 := h.1
  norm_num [C8enemy] at h1
  exact h1

/-- C9 counterexample: with one active, alive player the bound is
3·1 + 1 = 4, but a tick that already holds 5 enemies (reachable after a
second player dies) keeps all 5: the claimed invariant enemy-count ≤
3·I[players>0] + active_players does not hold at every tick. -/
theorem C9_counterexample :
    dynamicMaxEnemies [({} : ClientInfo)] = 4 ∧
    (UpdateEnemiesSpawnStep 0 10 5 [({} : ClientInfo)]).2 = 5 ∧
    ¬((UpdateEnemiesSpawnStep 0 10 5 [({} : ClientInfo)]).2
        ≤ dynamicMaxEnemies [({} : ClientInfo)]) := by
  have hmax : dynamicMaxEnemies [({} : ClientInfo)] = 4 := by
    simp [dynamicMaxEnemies]
  have hstep : (UpdateEnemiesSpawnStep 0 10 5 [({} : ClientInfo)]).2 = 5 := by
    simp [UpdateEnemiesSpawnStep, hmax, enemySpawnInterval]
  exact ⟨hmax, hstep, by rw [hstep, hmax]; omega⟩

/-- C9 (amended): the server spawns a new enemy exactly when the spawn timer
has reached the 5-second interval and the enemy count is strictly below
3·I[players > 0] + players (players counted as active, alive clients), so a
tick never raises the enemy count above max(previous count, bound); dead
enemies are removed each tick, but the count can remain above the bound
after the active player count drops. -/
theorem C9_enemy_spawn (deltaTime enemySpawnTimer : ℚ) (enemyCount : ℕ)
    (clients : List ClientInfo) (enemies : List (ℕ × EnemyState)) :
    ((UpdateEnemiesSpawnStep deltaTime enemySpawnTimer enemyCount clients).2
        = enemyCount + 1 ↔
      enemySpawnTimer + deltaTime ≥ enemySpawnInterval ∧
        enemyCount < dynamicMaxEnemies clients) ∧
    (UpdateEnemiesSpawnStep deltaTime enemySpawnTimer enemyCount clients).2
      ≤ max enemyCount (dynamicMaxEnemies clients) ∧
    (RemoveDeadEnemies enemies).length ≤ enemies.length ∧
    (RemoveDeadEnemies enemies).all (fun p => !p.2.IsDead) = true := by
  refine ⟨?_, ?_, List.length_filter_le _ _, ?_⟩
  · simp only [UpdateEnemiesSpawnStep]
    split_ifs with h
    · simpa using h
    · simp only [Prod.snd]
      constructor
      · intro habs; omega
      · intro hcond; exact absurd hcond h
  · simp only [UpdateEnemiesSpawnStep]
    split_ifs with h
    · simp only [Prod.snd]
      have := h.2
      omega
    · simp only [Prod.snd, le_max_iff]
      left
      exact le_refl _
  · simp [RemoveDeadEnemies, List.all_eq_true]

theorem WithVelocity_timestamp (sqrtF : ℚ → ℚ) (l : List EntitySnapshot)
    (s : EntitySnapshot) : (WithVelocity sqrtF l s).timestamp = s.timestamp := by
  unfold WithVelocity
  cases l with
  | nil => rfl
  | cons a l =>
      cases h : ((a :: l).takeWhile
          (fun x : EntitySnapshot => x.timestamp < s.timestamp)).getLast? with
      | none => simp only [h]
      | some prev => simp only [h]

theorem dropWhile_head_false {α : Type} {p : α → Bool} :
    ∀ {l : List α} {b : α} {rest : List α}, l.dropWhile p = b :: rest → p b = false := by
  intro l
  induction l with
  | nil => intro b rest h; simp [List.dropWhile] at h
  | cons a l ih =>
      intro b rest h
      rw [List.dropWhile_cons] at h
      by_cases hp : p a = true
      · rw [if_pos hp] at h; exact ih h
      · rw [if_neg hp] at h
        cases h
        simpa using hp

theorem pairwise_le_getLast :
    ∀ (l : List EntitySnapshot), BufferSorted l → ∀ a ∈ l, ∀ (hne : l ≠ []),
      a.timestamp ≤ (l.getLast hne).timestamp := by
  intro l
  induction l with
  | nil => intro _ a ha; simp at ha
  | cons x xs ih =>
      intro hs a ha hne
      cases xs with
      | nil =>
          simp at ha
          subst ha
          simp [List.getLast]
      | cons y ys =>
          rw [List.getLast_cons (by simp)]
          rcases List.mem_cons.mp ha with rfl | hmem
          · exact (List.pairwise_cons.mp hs).1 _
              (List.getLast_mem (l := y :: ys) (by simp))
          · exact ih (List.pairwise_cons.mp hs).2 a hmem (by simp)

theorem InsertChronological_sorted (l : List EntitySnapshot) (sv : EntitySnapshot)
    (hs : BufferSorted l) : BufferSorted (InsertChronological l sv) := by
  have hpre : ∀ a ∈ l.takeWhile (fun a : EntitySnapshot => a.timestamp < sv.timestamp),
      a.timestamp < sv.timestamp := by
    intro a ha
    have h1 := List.mem_takeWhile_imp ha
    exact of_decide_eq_true h1
  have hpre_sorted : BufferSorted
      (l.takeWhile (fun a : EntitySnapshot => a.timestamp < sv.timestamp)) :=
    List.Pairwise.sublist (List.takeWhile_sublist _) hs
  have hpost_sorted : BufferSorted
      (l.dropWhile (fun a : EntitySnapshot => a.timestamp < sv.timestamp)) :=
    List.Pairwise.sublist (List.dropWhile_sublist _) hs
  unfold InsertChronological
  cases hpost : l.dropWhile (fun a : EntitySnapshot => a.timestamp < sv.timestamp) with
  | nil =>
      dsimp only
      refine List.pairwise_append.mpr ⟨hpre_sorted, List.pairwise_singleton _ _, ?_⟩
      intro a ha b hb
      simp at hb
      subst hb
      exact le_of_lt (hpre a ha)
  | cons c rest =>
      dsimp only
      rw [hpost] at hpost_sorted
      have hcge : sv.timestamp ≤ c.timestamp := by
        have h1 := dropWhile_head_false hpost
        have h2 := of_decide_eq_false h1
        omega
      have hcrest : ∀ x ∈ rest, c.timestamp ≤ x.timestamp :=
        (List.pairwise_cons.mp hpost_sorted).1
      have hrest_sorted : BufferSorted rest := (List.pairwise_cons.mp hpost_sorted).2
      split_ifs with hceq
      · refine List.pairwise_append.mpr ⟨hpre_sorted, ?_, ?_⟩
        · refine List.pairwise_cons.mpr ⟨?_, hrest_sorted⟩
          intro x hx
          rw [← hceq]
          exact hcrest x hx
        · intro a ha b hb
          rcases List.mem_cons.mp hb with rfl | hbrest
          · exact le_of_lt (hpre a ha)
          · calc a.timestamp ≤ sv.timestamp := le_of_lt (hpre a ha)
              _ = c.timestamp := hceq.symm
              _ ≤ b.timestamp := hcrest b hbrest
      · refine List.pairwise_append.mpr ⟨hpre_sorted, ?_, ?_⟩
        · refine List.pairwise_cons.mpr ⟨?_, hpost_sorted⟩
          intro x hx
          rcases List.mem_cons.mp hx with rfl | hxrest
          · exact hcge
          · exact le_trans hcge (hcrest x hxrest)
        · intro a ha b hb
          rcases List.mem_cons.mp hb with rfl | hbtail
          · exact le_of_lt (hpre a ha)
          · rcases List.mem_cons.mp hbtail with rfl | hbrest
            · exact le_trans (le_of_lt (hpre a ha)) hcge
            · exact le_trans (le_of_lt (hpre a ha)) (le_trans hcge (hcrest b hbrest))

theorem AddSnapshotCore_sorted (sqrtF : ℚ → ℚ) (l : List EntitySnapshot)
    (s : EntitySnapshot) (hs : BufferSorted l) :
    BufferSorted (AddSnapshotCore sqrtF l s) := by
  unfold AddSnapshotCore
  cases hlast : l.getLast? with
  | none => dsimp only; exact List.pairwise_singleton _ _
  | some last =>
      dsimp only
      split_ifs with hge
      · refine List.pairwise_append.mpr ⟨hs, List.pairwise_singleton _ _, ?_⟩
        intro a ha b hb
        simp at hb
        subst hb
        have hne : l ≠ [] := by rintro rfl; simp at hlast
        have h1 := pairwise_le_getLast l hs a ha hne
        have h2 : l.getLast hne = last := by
          have h3 := List.getLast?_eq_getLast_of_ne_nil hne
          rw [hlast] at h3
          exact (Option.some.inj h3).symm
        rw [h2] at h1
        exact le_trans h1 hge
      · exact InsertChronological_sorted l _ hs

theorem AddSnapshot_sorted (sqrtF : ℚ → ℚ) (l : List EntitySnapshot)
    (s : EntitySnapshot) (hs : BufferSorted l) :
    BufferSorted (AddSnapshot sqrtF l s) :=
  List.Pairwise.sublist (List.drop_sublist _ _) (AddSnapshotCore_sorted sqrtF l s hs)

theorem AddSnapshot_length (sqrtF : ℚ → ℚ) (l : List EntitySnapshot)
    (s : EntitySnapshot) : (AddSnapshot sqrtF l s).length ≤ MAX_BUFFER_SIZE := by
  unfold AddSnapshot
  rw [List.length_drop]
  have : MAX_BUFFER_SIZE = 64 := rfl
  omega

theorem cleanupLoop_sorted (t : ℤ) (l : List EntitySnapshot) (h : BufferSorted l) :
    BufferSorted (cleanupLoop t l) := by
  induction l with
  | nil => exact h
  | cons a rest ih =>
      rw [cleanupLoop]
      split_ifs with hc
      · exact ih (List.pairwise_cons.mp h).2
      · exact h

theorem cleanupLoop_length (t : ℤ) (l : List EntitySnapshot) :
    (cleanupLoop t l).length ≤ l.length := by
  induction l with
  | nil => simp [cleanupLoop]
  | cons a rest ih =>
      rw [cleanupLoop]
      split_ifs with hc
      · exact le_trans ih (by simp)
      · exact le_refl _

theorem runBufferOps_inv (sqrtF : ℚ → ℚ) :
    ∀ (ops : List BufferOp) (buf : List EntitySnapshot),
    BufferSorted buf → buf.length ≤ MAX_BUFFER_SIZE →
    BufferSorted (ops.foldl (applyBufferOp sqrtF) buf) ∧
      (ops.foldl (applyBufferOp sqrtF) buf).length ≤ MAX_BUFFER_SIZE := by
  intro ops
  induction ops with
  | nil => intro buf h1 h2; exact ⟨h1, h2⟩
  | cons op rest ih =>
      intro buf h1 h2
      rw [List.foldl_cons]
      apply ih
      · cases op with
        | add s => exact AddSnapshot_sorted sqrtF buf s h1
        | cleanup t => exact cleanupLoop_sorted _ buf h1
      · cases op with
        | add s => exact AddSnapshot_length sqrtF buf s
        | cleanup t => exact le_trans (cleanupLoop_length _ buf) h2

theorem AddSnapshot_replace (sqrtF : ℚ → ℚ) (buf : List EntitySnapshot)
    (s b : EntitySnapshot) (hne : buf ≠ [])
    (hs : BufferSorted buf) (hlen : buf.length ≤ MAX_BUFFER_SIZE) (hb : b ∈ buf)
    (hbts : b.timestamp = s.timestamp)
    (hlast : s.timestamp < (buf.getLast hne).timestamp) :
    (AddSnapshot sqrtF buf s).map (fun a => a.timestamp)
      = buf.map (fun a => a.timestamp) := by
  have hts : (WithVelocity sqrtF buf s).timestamp = s.timestamp :=
    WithVelocity_timestamp sqrtF buf s
  have hcore : AddSnapshotCore sqrtF buf s
      = InsertChronological buf (WithVelocity sqrtF buf s) := by
    unfold AddSnapshotCore
    cases hlastq : buf.getLast? with
    | none =>
        exfalso
        cases buf with
        | nil => exact hne rfl
        | cons x xs => simp at hlastq
    | some last =>
        dsimp only
        have hlt : ¬ ((WithVelocity sqrtF buf s).timestamp ≥ last.timestamp) := by
          rw [hts]
          have h3 := List.getLast?_eq_getLast_of_ne_nil hne
          rw [hlastq] at h3
          rw [Option.some.inj h3]
          exact not_le.mpr hlast
        rw [if_neg hlt]
  have hsplit : buf.takeWhile
        (fun a : EntitySnapshot => a.timestamp < (WithVelocity sqrtF buf s).timestamp)
      ++ buf.dropWhile
        (fun a : EntitySnapshot => a.timestamp < (WithVelocity sqrtF buf s).timestamp)
      = buf := List.takeWhile_append_dropWhile _ _
  have hbpost : b ∈ buf.dropWhile
      (fun a : EntitySnapshot => a.timestamp < (WithVelocity sqrtF buf s).timestamp) := by
    have hb2 := hb
    rw [← hsplit] at hb2
    rcases List.mem_append.mp hb2 with hpre | hpost
    · exfalso
      have h1 := List.mem_takeWhile_imp hpre
      have hlt := of_decide_eq_true h1
      rw [hts, hbts] at hlt
      exact lt_irrefl _ hlt
    · exact hpost
  cases hpost : buf.dropWhile
      (fun a : EntitySnapshot => a.timestamp < (WithVelocity sqrtF buf s).timestamp) with
  | nil => rw [hpost] at hbpost; simp at hbpost
  | cons c rest =>
      rw [hpost] at hbpost
      have hpost_sorted : BufferSorted (c :: rest) := by
        rw [← hpost]
        exact List.Pairwise.sublist (List.dropWhile_sublist _) hs
      have hcge : (WithVelocity sqrtF buf s).timestamp ≤ c.timestamp := by
        have h1 := dropWhile_head_false hpost
        have h2 := of_decide_eq_false h1
        omega
      have hcge2 : s.timestamp ≤ c.timestamp := by
        rw [hts] at hcge
        exact hcge
      have hceq : c.timestamp = (WithVelocity sqrtF buf s).timestamp := by
        rw [hts]
        rcases List.mem_cons.mp hbpost with rfl | hbrest
        · exact hbts
        · have hcb := (List.pairwise_cons.mp hpost_sorted).1 b hbrest
          rw [hbts] at hcb
          omega
      have hcoreval : AddSnapshotCore sqrtF buf s
          = buf.takeWhile
              (fun a : EntitySnapshot =>
                a.timestamp < (WithVelocity sqrtF buf s).timestamp)
            ++ WithVelocity sqrtF buf s :: rest := by
        rw [hcore]
        unfold InsertChronological
        rw [hpost]
        dsimp only
        rw [if_pos hceq]
      have hbufeq : buf
          = buf.takeWhile
              (fun a : EntitySnapshot =>
                a.timestamp < (WithVelocity sqrtF buf s).timestamp)
            ++ c :: rest := by
        rw [← hpost, hsplit]
      have hlencore : (AddSnapshotCore sqrtF buf s).length = buf.length := by
        rw [hcoreval]
        conv_rhs => rw [hbufeq]
        simp
      unfold AddSnapshot
      rw [hlencore]
      have hz : buf.length - MAX_BUFFER_SIZE = 0 := by
        have : MAX_BUFFER_SIZE = 64 := rfl
        omega
      rw [hz, List.drop_zero, hcoreval]
      conv_rhs => rw [hbufeq]
      simp only [List.map_append, List.map_cons]
      rw [hceq, hts]

/-- C6 counterexample: adding two snapshots with timestamp 100 to an empty
buffer appends a duplicate (the equal-timestamp replacement only happens for
timestamps strictly below the last entry's): the buffer ends with timestamps
[100, 100], which is not strictly increasing. -/
theorem C6_counterexample :
    (runBufferOps (fun q => q)
        [BufferOp.add { timestamp := 100 },
         BufferOp.add { timestamp := 100, posX := 5 }]).map
      (fun a => a.timestamp) = [100, 100] ∧
    ¬ List.Pairwise (fun a b : EntitySnapshot => a.timestamp < b.timestamp)
      (runBufferOps (fun q => q)
        [BufferOp.add { timestamp := 100 },
         BufferOp.add { timestamp := 100, posX := 5 }]) := by
  constructor
  · decide
  · decide

/-- C6 (amended): after any sequence of AddSnapshot and CleanupOldSnapshots
calls the buffer holds at most 64 snapshots in non-decreasing timestamp
order (not strictly increasing: duplicates of the newest timestamp can
accumulate), and adding a snapshot whose timestamp equals an existing
entry's strictly below the last timestamp replaces that entry, leaving the
timestamp sequence unchanged. -/
theorem C6_buffer_invariant (sqrtF : ℚ → ℚ) (ops : List BufferOp) :
    BufferSorted (runBufferOps sqrtF ops) ∧
    (runBufferOps sqrtF ops).length ≤ MAX_BUFFER_SIZE ∧
    (∀ (buf : List EntitySnapshot) (s b : EntitySnapshot) (hne : buf ≠ []),
      BufferSorted buf → buf.length ≤ MAX_BUFFER_SIZE → b ∈ buf →
      b.timestamp = s.timestamp →
      s.timestamp < (buf.getLast hne).timestamp →
      (AddSnapshot sqrtF buf s).map (fun a => a.timestamp)
        = buf.map (fun a => a.timestamp)) := by
  have hinv := runBufferOps_inv sqrtF ops [] (List.Pairwise.nil) (by simp [MAX_BUFFER_SIZE])
  exact ⟨hinv.1, hinv.2, fun buf s b hne h1 h2 h3 h4 h5 =>
    AddSnapshot_replace sqrtF buf s b hne h1 h2 h3 h4 h5⟩

theorem C6_buffer_invariant_witness :
    (AddSnapshot (fun q => q)
        [{ timestamp := 100 }, { timestamp := 200 }]
        { timestamp := 100, posX := 7 }).map (fun a => a.timestamp)
      = [100, 200] := by
  have h := (C6_buffer_invariant (fun q => q) []).2.2
    [{ timestamp := 100 }, { timestamp := 200 }] { timestamp := 100, posX := 7 }
    { timestamp := 100 } (by decide) (by decide) (by decide) (by decide) rfl
    (by decide)
  rw [h]
  decide


/-- C3 counterexample: at error 100 ≥ 50 the client hard-snaps to the
server position, but does NOT replay the unacknowledged input with sequence
last_acked + 1 = 43 sitting in the buffer (it was never flagged needsReplay
and the from-sequence argument is ignored): the code leaves the tank at
x = 600 and the buffer untouched, while the spec's "replay all
unacknowledged inputs from last_acked_seq + 1" yields x = 603. -/
theorem C3_counterexample :
    (ApplyServerReconciliation (fun _ => 1) (fun _ => 0) (fun _ _ => 0)
        C3state 600 480 0).tank.posX = 600 ∧
    (ApplyServerReconciliation (fun _ => 1) (fun _ => 0) (fun _ _ => 0)
        C3state 600 480 0).inputBuffer = C3state.inputBuffer ∧
    C3input.sequenceNumber = C3state.lastAcknowledgedInputSeq + 1 ∧
    (specReplayAllUnacked (fun _ => 1) (fun _ => 0) (fun _ _ => 0)
        C3snapped (C3state.lastAcknowledgedInputSeq + 1) 700 480).tank.posX = 603 ∧
    (600 : ℚ) ≠ 603 := by
  have hget : GetInputsToReplay C3state.inputBuffer = [] := by
    simp [GetInputsToReplay, C3state]
  have hcode : ApplyServerReconciliation (fun _ => 1) (fun _ => 0) (fun _ _ => 0)
      C3state 600 480 0 = { C3state with
        tank := { C3state.tank with posX := 600, posY := 480, bodyRotation := 0 }
        isReconciling := false } := by
    unfold ApplyServerReconciliation
    rw [if_neg (by norm_num [C3state]), if_neg (by norm_num [C3state,
      SMOOTH_CORRECTION_THRESHOLD]), if_neg (by norm_num [C3state,
      SNAP_CORRECTION_THRESHOLD])]
    unfold ReplayInputsAfterCorrection
    dsimp only
    rw [hget]
    rfl
  have hnorm0 : NormalizeRotation (0 : ℚ) = 0 :=
    NormalizeRotation_of_in_range (by norm_num) (by norm_num)
  have hspec : (specReplayAllUnacked (fun _ => 1) (fun _ => 0) (fun _ _ => 0)
      C3snapped (C3state.lastAcknowledgedInputSeq + 1) 700 480).tank.posX = 603 := by
    unfold specReplayAllUnacked
    simp [C3snapped, C3state, C3input, ApplyInputToTank, hnorm0]
    norm_num
  refine ⟨by rw [hcode], by rw [hcode], by norm_num [C3input, C3state], hspec,
    by norm_num⟩


/-- C3 (amended): against a stashed server state with squared position
error e²: e² < 25 leaves the state unchanged; 25 ≤ e² < 900 records the
server state as lerp target and sets isReconciling (the later smooth steps
lerp at factor RECONCILIATION_RATE·0.016 per 16 ms tick and clear
isReconciling once within 2 units); 900 ≤ e² < 2500 snaps halfway, sets the
body rotation to the server value, keeps lerping, and marks the buffered
inputs with sequence ≥ last_acked + 1 for replay; e² ≥ 2500 hard-snaps
position and body rotation and replays only the inputs already flagged
needsReplay — the from-sequence argument is ignored, so nothing is replayed
unless a previous medium-tier correction flagged inputs — and the barrel
rotation is untouched by tiers 1-3, by the smooth steps, and by a tier-4
snap with an empty replay set (a non-empty replay recomputes it from a
synthetic mouse position). -/
theorem C3_reconciliation (cosF sinF : ℚ → ℚ) (atan2F : ℚ → ℚ → ℚ)
    (st : ClientReconState) (serverX serverY serverRot : ℚ) :
    ((st.tank.posX - serverX) * (st.tank.posX - serverX)
        + (st.tank.posY - serverY) * (st.tank.posY - serverY) < 25 →
      ApplyServerReconciliation cosF sinF atan2F st serverX serverY serverRot = st) ∧
    (25 ≤ (st.tank.posX - serverX) * (st.tank.posX - serverX)
        + (st.tank.posY - serverY) * (st.tank.posY - serverY) →
      (st.tank.posX - serverX) * (st.tank.posX - serverX)
        + (st.tank.posY - serverY) * (st.tank.posY - serverY) < 900 →
      ApplyServerReconciliation cosF sinF atan2F st serverX serverY serverRot
        = { st with
            reconciliationTargetX := serverX
            reconciliationTargetY := serverY
            reconciliationTargetRotation := serverRot
            isReconciling := true }) ∧
    (900 ≤ (st.tank.posX - serverX) * (st.tank.posX - serverX)
        + (st.tank.posY - serverY) * (st.tank.posY - serverY) →
      (st.tank.posX - serverX) * (st.tank.posX - serverX)
        + (st.tank.posY - serverY) * (st.tank.posY - serverY) < 2500 →
      ApplyServerReconciliation cosF sinF atan2F st serverX serverY serverRot
        = { st with
            tank := { st.tank with
              posX := st.tank.posX + (serverX - st.tank.posX) * (1 / 2)
              posY := st.tank.posY + (serverY - st.tank.posY) * (1 / 2)
              bodyRotation := serverRot }
            reconciliationTargetX := serverX
            reconciliationTargetY := serverY
            reconciliationTargetRotation := serverRot
            isReconciling := true
            inputBuffer := MarkInputsForReplay st.inputBuffer
              (st.lastAcknowledgedInputSeq + 1) }) ∧
    (2500 ≤ (st.tank.posX - serverX) * (st.tank.posX - serverX)
        + (st.tank.posY - serverY) * (st.tank.posY - serverY) →
      GetInputsToReplay st.inputBuffer = [] →
      ApplyServerReconciliation cosF sinF atan2F st serverX serverY serverRot
        = { st with
            tank := { st.tank with
              posX := serverX
              posY := serverY
              bodyRotation := serverRot }
            isReconciling := false }) ∧
    (∀ (st2 : ClientReconState) (f1 f2 : ℕ) (mx my : ℚ),
      ReplayInputsAfterCorrection cosF sinF atan2F st2 f1 mx my
        = ReplayInputsAfterCorrection cosF sinF atan2F st2 f2 mx my) ∧
    (st.isReconciling = true →
      (ContinueReconciliationStep st).tank.posX
          = st.tank.posX + (st.reconciliationTargetX - st.tank.posX)
              * (RECONCILIATION_RATE * (16 / 1000)) ∧
      (ContinueReconciliationStep st).tank.posY
          = st.tank.posY + (st.reconciliationTargetY - st.tank.posY)
              * (RECONCILIATION_RATE * (16 / 1000)) ∧
      (ContinueReconciliationStep st).tank.barrelRotation = st.tank.barrelRotation ∧
      ((st.reconciliationTargetX
            - (st.tank.posX + (st.reconciliationTargetX - st.tank.posX)
                * (RECONCILIATION_RATE * (16 / 1000))))
          * (st.reconciliationTargetX
            - (st.tank.posX + (st.reconciliationTargetX - st.tank.posX)
                * (RECONCILIATION_RATE * (16 / 1000))))
        + (st.reconciliationTargetY
            - (st.tank.posY + (st.reconciliationTargetY - st.tank.posY)
                * (RECONCILIATION_RATE * (16 / 1000))))
          * (st.reconciliationTargetY
            - (st.tank.posY + (st.reconciliationTargetY - st.tank.posY)
                * (RECONCILIATION_RATE * (16 / 1000)))) < 2 * 2 →
        (ContinueReconciliationStep st).isReconciling = false) ∧
      (¬((st.reconciliationTargetX
            - (st.tank.posX + (st.reconciliationTargetX - st.tank.posX)
                * (RECONCILIATION_RATE * (16 / 1000))))
          * (st.reconciliationTargetX
            - (st.tank.posX + (st.reconciliationTargetX - st.tank.posX)
                * (RECONCILIATION_RATE * (16 / 1000))))
        + (st.reconciliationTargetY
            - (st.tank.posY + (st.reconciliationTargetY - st.tank.posY)
                * (RECONCILIATION_RATE * (16 / 1000))))
          * (st.reconciliationTargetY
            - (st.tank.posY + (st.reconciliationTargetY - st.tank.posY)
                * (RECONCILIATION_RATE * (16 / 1000)))) < 2 * 2) →
        (ContinueReconciliationStep st).isReconciling = true)) := by
  refine ⟨?_, ?_, ?_, ?_, ?_, ?_⟩
  · intro h1
    unfold ApplyServerReconciliation
    rw [if_pos (by linarith)]
  · intro h1 h2
    unfold ApplyServerReconciliation
    rw [if_neg (by linarith), if_pos (by
      norm_num [SMOOTH_CORRECTION_THRESHOLD]
      linarith)]
  · intro h1 h2
    unfold ApplyServerReconciliation
    rw [if_neg (by linarith),
      if_neg (by norm_num [SMOOTH_CORRECTION_THRESHOLD]; linarith),
      if_pos (by norm_num [SNAP_CORRECTION_THRESHOLD]; linarith)]
  · intro h1 hempty
    unfold ApplyServerReconciliation
    rw [if_neg (by linarith),
      if_neg (by norm_num [SMOOTH_CORRECTION_THRESHOLD]; linarith),
      if_neg (by norm_num [SNAP_CORRECTION_THRESHOLD]; linarith)]
    unfold ReplayInputsAfterCorrection
    dsimp only
    rw [hempty]
    rfl
  · intro st2 f1 f2 mx my
    rfl
  · intro hrec
    have hstep : ContinueReconciliationStep st
        = { st with
            tank := { st.tank with
              posX := st.tank.posX + (st.reconciliationTargetX - st.tank.posX)
                * (RECONCILIATION_RATE * (16 / 1000))
              posY := st.tank.posY + (st.reconciliationTargetY - st.tank.posY)
                * (RECONCILIATION_RATE * (16 / 1000))
              bodyRotation := st.tank.bodyRotation
                + (if (if st.reconciliationTargetRotation - st.tank.bodyRotation > 180
                      then st.reconciliationTargetRotation - st.tank.bodyRotation - 360
                      else st.reconciliationTargetRotation - st.tank.bodyRotation) < -180
                    then (if st.reconciliationTargetRotation - st.tank.bodyRotation > 180
                      then st.reconciliationTargetRotation - st.tank.bodyRotation - 360
                      else st.reconciliationTargetRotation - st.tank.bodyRotation) + 360
                    else (if st.reconciliationTargetRotation - st.tank.bodyRotation > 180
                      then st.reconciliationTargetRotation - st.tank.bodyRotation - 360
                      else st.reconciliationTargetRotation - st.tank.bodyRotation))
                  * (RECONCILIATION_RATE * (16 / 1000)) }
            isReconciling :=
              if (st.reconciliationTargetX
                    - (st.tank.posX + (st.reconciliationTargetX - st.tank.posX)
                        * (RECONCILIATION_RATE * (16 / 1000))))
                  * (st.reconciliationTargetX
                    - (st.tank.posX + (st.reconciliationTargetX - st.tank.posX)
                        * (RECONCILIATION_RATE * (16 / 1000))))
                + (st.reconciliationTargetY
                    - (st.tank.posY + (st.reconciliationTargetY - st.tank.posY)
                        * (RECONCILIATION_RATE * (16 / 1000))))
                  * (st.reconciliationTargetY
                    - (st.tank.posY + (st.reconciliationTargetY - st.tank.posY)
                        * (RECONCILIATION_RATE * (16 / 1000)))) < 2 * 2
              then false else true } := by
      unfold ContinueReconciliationStep
      rw [hrec]
      rfl
    refine ⟨by rw [hstep], by rw [hstep], by rw [hstep], ?_, ?_⟩
    · intro h4
      rw [hstep]
      dsimp only
      rw [if_pos h4]
    · intro h4
      rw [hstep]
      dsimp only
      rw [if_neg h4]

theorem C3_reconciliation_witness :
    ApplyServerReconciliation (fun _ => 1) (fun _ => 0) (fun _ _ => 0)
      { tank := { posX := 600, posY := 480 } } 600 480 0
      = { tank := { posX := 600, posY := 480 } } := by
  have h := (C3_reconciliation (fun _ => 1) (fun _ => 0) (fun _ _ => 0)
    { tank := { posX := 600, posY := 480 } } 600 480 0).1
  apply h
  norm_num

end TankGame
